import Mathlib

/-!
# LR1110 EVK demo application: `main.cpp`

Shallow embedding of the stateful classes of
`embedded/application/src/main.cpp`:

* `Environment` (time source read from the system ticker),
* `AntennaSelector` (two control lines, configured on first use),
* `Signaling` (timed transmit/receive LEDs and the scan LED).

Hardware state that the C++ code reaches through the HAL (`system_gpio_*`,
`system_time_GetTicker`) is made explicit: the GPIO lines live in a `Board`
value that every operation takes and returns, and the ticker reading is an
argument of the operations that read the clock.  `uint32_t` values are
natural numbers, reduced modulo `2^32` wherever the C++ code converts or
subtracts.
-/

namespace Lr1110Evk

/-! ## HAL: GPIO lines -/

/-- Modelled from the spec: the electrical level of a line, the enumeration
`system_gpio_pin_state_t` of the absent header `system.h`. -/
inductive system_gpio_pin_state_t where
  | SYSTEM_GPIO_PIN_STATE_LOW
  | SYSTEM_GPIO_PIN_STATE_HIGH
  deriving DecidableEq, Repr

/-- Modelled from the spec: the direction of a line, the enumeration
`system_gpio_pin_direction_t` of the absent header `system.h`. -/
inductive system_gpio_pin_direction_t where
  | SYSTEM_GPIO_PIN_DIRECTION_INPUT
  | SYSTEM_GPIO_PIN_DIRECTION_OUTPUT
  deriving DecidableEq, Repr

open system_gpio_pin_state_t system_gpio_pin_direction_t

/-- The `gpio_t` objects that the classes of `main.cpp` define (lines 110-115
and 184-195).  Their port/pin macros come from the absent `configuration.h`;
the five names are taken to denote five distinct physical lines. -/
inductive gpio_t where
  | antenna_selector_ctrl
  | antenna_selector_n_ctrl
  | led_scan
  | led_tx
  | led_rx
  deriving DecidableEq, Repr

/-- What the hardware holds for one line. -/
structure pin_t where
  direction : system_gpio_pin_direction_t
  state : system_gpio_pin_state_t
  deriving DecidableEq, Repr

/-- A call into the GPIO part of the HAL, as recorded in `Board.calls`. -/
inductive gpio_call where
  | init_direction_state (gpio : gpio_t) (direction : system_gpio_pin_direction_t)
      (state : system_gpio_pin_state_t)
  | set_pin_state (gpio : gpio_t) (state : system_gpio_pin_state_t)
  deriving DecidableEq, Repr

/-- The GPIO hardware: the current direction and level of every line, and the
HAL calls made so far, oldest first. -/
structure Board where
  pins : gpio_t → pin_t
  calls : List gpio_call

/-- Modelled from the spec: `system_gpio_set_pin_state` of the absent HAL,
which drives one line to the given level and touches nothing else. -/
def system_gpio_set_pin_state (gpio : gpio_t) (state : system_gpio_pin_state_t)
    (hw : Board) : Board :=
  { pins := Function.update hw.pins gpio { direction := (hw.pins gpio).direction, state := state }
    calls := hw.calls ++ [gpio_call.set_pin_state gpio state] }

/-- Modelled from the spec: `system_gpio_init_direction_state` of the absent
HAL, which configures one line with the given direction and initial level. -/
def system_gpio_init_direction_state (gpio : gpio_t)
    (direction : system_gpio_pin_direction_t) (state : system_gpio_pin_state_t)
    (hw : Board) : Board :=
  { pins := Function.update hw.pins gpio { direction := direction, state := state }
    calls := hw.calls ++ [gpio_call.init_direction_state gpio direction state] }

/-! ## HAL: the ticker, and 32-bit arithmetic -/

/-- Number of values of a `uint32_t`. -/
def UINT32_RANGE : Nat := 4294967296

/-- Conversion of a value to `uint32_t`. -/
def to_uint32 (x : Nat) : Nat := x % UINT32_RANGE

/-- Subtraction `a - b` of two `uint32_t` values: the difference modulo
`2^32`. -/
def uint32_sub (a b : Nat) : Nat :=
  (a % UINT32_RANGE + (UINT32_RANGE - b % UINT32_RANGE)) % UINT32_RANGE

/-- Modelled from the spec: `system_time_GetTicker` of the absent HAL, a
free-running 32-bit millisecond counter; `t` milliseconds after its start it
reads `t mod 2^32`. -/
def system_time_GetTicker (t : Nat) : Nat := t % UINT32_RANGE

/-! ## `Environment` (lines 63-68)

`ticker` is the value `system_time_GetTicker( )` returns at the call. -/

/-- `Environment::GetLocalTimeSeconds`. -/
def Environment.GetLocalTimeSeconds (ticker : Nat) : Nat := ticker / 1000

/-- `Environment::GetLocalTimeMilliseconds`. -/
def Environment.GetLocalTimeMilliseconds (ticker : Nat) : Nat := ticker

/-! ## `AntennaSelector` (lines 70-115) -/

/-- The mutable state of `AntennaSelector`: its static flag. -/
structure AntennaSelector where
  has_been_init : Bool
  deriving DecidableEq, Repr

/-- `AntennaSelector::init_if_not`. -/
def AntennaSelector.init_if_not (self : AntennaSelector) (hw : Board) :
    AntennaSelector × Board :=
  if self.has_been_init then
    (self, hw)
  else
    let hw := system_gpio_init_direction_state gpio_t.antenna_selector_ctrl
      SYSTEM_GPIO_PIN_DIRECTION_OUTPUT SYSTEM_GPIO_PIN_STATE_LOW hw
    let hw := system_gpio_init_direction_state gpio_t.antenna_selector_n_ctrl
      SYSTEM_GPIO_PIN_DIRECTION_OUTPUT SYSTEM_GPIO_PIN_STATE_LOW hw
    ({ self with has_been_init := true }, hw)

/-- `AntennaSelector::SelectAntenna1`. -/
def AntennaSelector.SelectAntenna1 (self : AntennaSelector) (hw : Board) :
    AntennaSelector × Board :=
  let st := AntennaSelector.init_if_not self hw
  let hw := system_gpio_set_pin_state gpio_t.antenna_selector_ctrl SYSTEM_GPIO_PIN_STATE_LOW st.2
  let hw := system_gpio_set_pin_state gpio_t.antenna_selector_n_ctrl SYSTEM_GPIO_PIN_STATE_HIGH hw
  (st.1, hw)

/-- `AntennaSelector::SelectAntenna2`. -/
def AntennaSelector.SelectAntenna2 (self : AntennaSelector) (hw : Board) :
    AntennaSelector × Board :=
  let st := AntennaSelector.init_if_not self hw
  let hw := system_gpio_set_pin_state gpio_t.antenna_selector_ctrl SYSTEM_GPIO_PIN_STATE_HIGH st.2
  let hw := system_gpio_set_pin_state gpio_t.antenna_selector_n_ctrl SYSTEM_GPIO_PIN_STATE_LOW hw
  (st.1, hw)

/-! ## `Signaling` (lines 117-197) -/

/-- `Signaling::DURATION_TX_ON_MS` (line 196). -/
def Signaling.DURATION_TX_ON_MS : Nat := 100

/-- `Signaling::DURATION_RX_ON_MS` (line 197). -/
def Signaling.DURATION_RX_ON_MS : Nat := 100

/-- The mutable fields of a `Signaling` object. -/
structure Signaling where
  do_monitor_tx : Bool
  turn_on_tx_instant_ms : Nat
  do_monitor_rx : Bool
  turn_on_rx_instant_ms : Nat
  deriving DecidableEq, Repr

/-- The constructor `Signaling::Signaling` (lines 120-128). -/
def Signaling.new : Signaling :=
  { do_monitor_tx := false, turn_on_tx_instant_ms := 0,
    do_monitor_rx := false, turn_on_rx_instant_ms := 0 }

/-- `Signaling::Runtime`. -/
def Signaling.Runtime (ticker : Nat) (self : Signaling) (hw : Board) : Signaling × Board :=
  let now_ms := to_uint32 (Environment.GetLocalTimeMilliseconds ticker)
  let st : Signaling × Board :=
    if self.do_monitor_tx then
      if uint32_sub now_ms self.turn_on_tx_instant_ms > Signaling.DURATION_TX_ON_MS then
        ({ self with do_monitor_tx := false },
          system_gpio_set_pin_state gpio_t.led_tx SYSTEM_GPIO_PIN_STATE_LOW hw)
      else (self, hw)
    else (self, hw)
  if st.1.do_monitor_rx then
    if uint32_sub now_ms st.1.turn_on_rx_instant_ms > Signaling.DURATION_RX_ON_MS then
      ({ st.1 with do_monitor_rx := false },
        system_gpio_set_pin_state gpio_t.led_rx SYSTEM_GPIO_PIN_STATE_LOW st.2)
    else st
  else st

/-- `Signaling::StartCapture`. -/
def Signaling.StartCapture (self : Signaling) (hw : Board) : Signaling × Board :=
  (self, system_gpio_set_pin_state gpio_t.led_scan SYSTEM_GPIO_PIN_STATE_HIGH hw)

/-- `Signaling::StopCapture`. -/
def Signaling.StopCapture (self : Signaling) (hw : Board) : Signaling × Board :=
  (self, system_gpio_set_pin_state gpio_t.led_scan SYSTEM_GPIO_PIN_STATE_LOW hw)

/-- `Signaling::Tx`. -/
def Signaling.Tx (ticker : Nat) (self : Signaling) (hw : Board) : Signaling × Board :=
  let self := { self with do_monitor_tx := true }
  let self := { self with
    turn_on_tx_instant_ms := to_uint32 (Environment.GetLocalTimeMilliseconds ticker) }
  (self, system_gpio_set_pin_state gpio_t.led_tx SYSTEM_GPIO_PIN_STATE_HIGH hw)

/-- `Signaling::Rx`. -/
def Signaling.Rx (ticker : Nat) (self : Signaling) (hw : Board) : Signaling × Board :=
  let self := { self with do_monitor_rx := true }
  let self := { self with
    turn_on_rx_instant_ms := to_uint32 (Environment.GetLocalTimeMilliseconds ticker) }
  (self, system_gpio_set_pin_state gpio_t.led_rx SYSTEM_GPIO_PIN_STATE_HIGH hw)

/-- `Signaling::StartContinuousTx`. -/
def Signaling.StartContinuousTx (self : Signaling) (hw : Board) : Signaling × Board :=
  let self := { self with do_monitor_tx := false }
  let self := { self with do_monitor_rx := false }
  (self, system_gpio_set_pin_state gpio_t.led_tx SYSTEM_GPIO_PIN_STATE_HIGH hw)

/-- `Signaling::StopContinuousTx`. -/
def Signaling.StopContinuousTx (self : Signaling) (hw : Board) : Signaling × Board :=
  let self := { self with do_monitor_tx := false }
  let self := { self with do_monitor_rx := false }
  (self, system_gpio_set_pin_state gpio_t.led_tx SYSTEM_GPIO_PIN_STATE_LOW hw)

/-! ## Call sequences -/

/-- The operations of `SignalingInterface` together with `Runtime`. -/
inductive SignalingOp where
  | StartCapture
  | StopCapture
  | Tx
  | Rx
  | StartContinuousTx
  | StopContinuousTx
  | Runtime
  deriving DecidableEq, Repr

/-- One call on a `Signaling` object, made while the ticker reads `ticker`. -/
def Signaling.call (op : SignalingOp) (ticker : Nat) (st : Signaling × Board) :
    Signaling × Board :=
  match op with
  | SignalingOp.StartCapture => Signaling.StartCapture st.1 st.2
  | SignalingOp.StopCapture => Signaling.StopCapture st.1 st.2
  | SignalingOp.Tx => Signaling.Tx ticker st.1 st.2
  | SignalingOp.Rx => Signaling.Rx ticker st.1 st.2
  | SignalingOp.StartContinuousTx => Signaling.StartContinuousTx st.1 st.2
  | SignalingOp.StopContinuousTx => Signaling.StopContinuousTx st.1 st.2
  | SignalingOp.Runtime => Signaling.Runtime ticker st.1 st.2

/-- A sequence of calls, each stamped with the time in milliseconds (since the
ticker started) at which it is made; the call sees the ticker reading of that
time. -/
def Signaling.run (st : Signaling × Board) (events : List (SignalingOp × Nat)) :
    Signaling × Board :=
  events.foldl (fun st e => Signaling.call e.1 (system_time_GetTicker e.2) st) st

/-- The events of a sequence of `Runtime` polls made at the given times. -/
def Signaling.polls (times : List Nat) : List (SignalingOp × Nat) :=
  times.map (fun t => (SignalingOp.Runtime, t))

/-- Every `Runtime` poll of the sequence is made less than
`DURATION_TX_ON_MS` after the most recent `Tx` that precedes it; `last` is the
time of the most recent `Tx` before the sequence. -/
def polls_soon_after_Tx : Nat → List (SignalingOp × Nat) → Bool
  | _, [] => true
  | _, (SignalingOp.Tx, t) :: rest => polls_soon_after_Tx t rest
  | last, (SignalingOp.Runtime, t) :: rest =>
      decide (t < last + Signaling.DURATION_TX_ON_MS) && polls_soon_after_Tx last rest
  | last, _ :: rest => polls_soon_after_Tx last rest

/-- The two selection operations of `AntennaSelectorInterface`. -/
inductive AntennaOp where
  | SelectAntenna1
  | SelectAntenna2
  deriving DecidableEq, Repr

/-- One call on the antenna selector. -/
def AntennaSelector.call (op : AntennaOp) (st : AntennaSelector × Board) :
    AntennaSelector × Board :=
  match op with
  | AntennaOp.SelectAntenna1 => AntennaSelector.SelectAntenna1 st.1 st.2
  | AntennaOp.SelectAntenna2 => AntennaSelector.SelectAntenna2 st.1 st.2

/-- A sequence of calls on the antenna selector. -/
def AntennaSelector.run (st : AntennaSelector × Board) (ops : List AntennaOp) :
    AntennaSelector × Board :=
  ops.foldl (fun st op => AntennaSelector.call op st) st

/-- A board on which every line is an input at low level and no HAL call has
been made yet. -/
def Board.reset : Board :=
  { pins := fun _ => { direction := SYSTEM_GPIO_PIN_DIRECTION_INPUT,
                       state := SYSTEM_GPIO_PIN_STATE_LOW }
    calls := [] }

/-! ## Observations -/

/-- Level of the transmit LED line. -/
def Board.led_tx (hw : Board) : system_gpio_pin_state_t := (hw.pins gpio_t.led_tx).state

/-- Level of the receive LED line. -/
def Board.led_rx (hw : Board) : system_gpio_pin_state_t := (hw.pins gpio_t.led_rx).state

/-- Level of the scan LED line. -/
def Board.led_scan (hw : Board) : system_gpio_pin_state_t := (hw.pins gpio_t.led_scan).state

/-- The receive channel is either still timed from the activation at `t0`, or
already switched off. -/
def RxTimedOrOff (t0 : Nat) (st : Signaling × Board) : Prop :=
  (st.1.do_monitor_rx = true ∧
      st.1.turn_on_rx_instant_ms = to_uint32 (system_time_GetTicker t0) ∧
      st.2.led_rx = SYSTEM_GPIO_PIN_STATE_HIGH) ∨
    (st.1.do_monitor_rx = false ∧ st.2.led_rx = SYSTEM_GPIO_PIN_STATE_LOW)

/-- The HAL calls with which `init_if_not` configures the two control lines. -/
def AntennaSelector.configuration_calls : List gpio_call :=
  [gpio_call.init_direction_state gpio_t.antenna_selector_ctrl
      SYSTEM_GPIO_PIN_DIRECTION_OUTPUT SYSTEM_GPIO_PIN_STATE_LOW,
    gpio_call.init_direction_state gpio_t.antenna_selector_n_ctrl
      SYSTEM_GPIO_PIN_DIRECTION_OUTPUT SYSTEM_GPIO_PIN_STATE_LOW]

/-- The two HAL calls with which a selection sets the levels of the control
lines. -/
def AntennaOp.level_calls : AntennaOp → List gpio_call
  | AntennaOp.SelectAntenna1 =>
      [gpio_call.set_pin_state gpio_t.antenna_selector_ctrl SYSTEM_GPIO_PIN_STATE_LOW,
        gpio_call.set_pin_state gpio_t.antenna_selector_n_ctrl SYSTEM_GPIO_PIN_STATE_HIGH]
  | AntennaOp.SelectAntenna2 =>
      [gpio_call.set_pin_state gpio_t.antenna_selector_ctrl SYSTEM_GPIO_PIN_STATE_HIGH,
        gpio_call.set_pin_state gpio_t.antenna_selector_n_ctrl SYSTEM_GPIO_PIN_STATE_LOW]

/-- Whether a HAL call is a line configuration. -/
def gpio_call.is_configuration : gpio_call → Bool
  | gpio_call.init_direction_state _ _ _ => true
  | gpio_call.set_pin_state _ _ => false

/-- The two timed channels of `Signaling`. -/
inductive Channel where
  | transmit
  | receive
  deriving DecidableEq, Repr

/-- What belongs to a timed channel: its monitoring flag, its recorded start
time and the level of its LED line. -/
def Channel.view : Channel → Signaling × Board → Bool × Nat × system_gpio_pin_state_t
  | Channel.transmit, st => (st.1.do_monitor_tx, st.1.turn_on_tx_instant_ms, st.2.led_tx)
  | Channel.receive, st => (st.1.do_monitor_rx, st.1.turn_on_rx_instant_ms, st.2.led_rx)

/-- The call `StartContinuousTx( )` followed by the call `StopContinuousTx( )`. -/
def Signaling.StartThenStopContinuousTx (self : Signaling) (hw : Board) : Signaling × Board :=
  Signaling.StopContinuousTx (Signaling.StartContinuousTx self hw).1
    (Signaling.StartContinuousTx self hw).2

/-- The operation that switches a timed channel on. -/
def Channel.activation : Channel → SignalingOp
  | Channel.transmit => SignalingOp.Tx
  | Channel.receive => SignalingOp.Rx

/-- Time of the most recent call of `op` in a sequence of events, `acc` being
the time of the most recent one before the sequence, if any. -/
def last_call_time (op : SignalingOp) : Option Nat → List (SignalingOp × Nat) → Option Nat
  | acc, [] => acc
  | acc, e :: rest => last_call_time op (if e.1 = op then some e.2 else acc) rest

/-- Levels of the two antenna control lines, `antenna_selector_ctrl` first. -/
def Board.antenna_levels (hw : Board) : system_gpio_pin_state_t × system_gpio_pin_state_t :=
  ((hw.pins gpio_t.antenna_selector_ctrl).state, (hw.pins gpio_t.antenna_selector_n_ctrl).state)

/-! ## `main` (lines 199-242)

The calls that `main` itself makes, in order.  The routines called are not
part of `main.cpp` (apart from `Signaling::Runtime`), so a call is recorded
as an event; the declarations of the objects (lines 213-220) are not
recorded. -/

/-- A call made by `main`. -/
inductive main_call where
  | system_init
  | system_time_wait_ms (ms : Nat)
  | lv_init
  | lv_port_disp_init
  | lv_port_indev_init
  | Logging_EnableLogging
  | supervisor_Init
  | system_uart_flush
  | system_gpio_get_pin_state_BUTTON_BLUE
  | signaling_Runtime
  | supervisor_RuntimeAuto
  | supervisor_Runtime
  deriving DecidableEq, Repr

/-- The calls of lines 203-223, before the mode-select input is read. -/
def main_bring_up : List main_call :=
  [main_call.system_init, main_call.system_time_wait_ms 500, main_call.lv_init,
    main_call.lv_port_disp_init, main_call.lv_port_indev_init,
    main_call.Logging_EnableLogging, main_call.supervisor_Init, main_call.system_uart_flush]

/-- The value of `automatic_mode` after lines 201 and 225-228, `button` being
what `system_gpio_get_pin_state` returned for the blue button. -/
def main_automatic_mode (button : system_gpio_pin_state_t) : Bool :=
  let automatic_mode := false
  if button = SYSTEM_GPIO_PIN_STATE_LOW then true else automatic_mode

/-- One iteration of the `while( 1 )` loop (lines 232-240). -/
def main_iteration (automatic_mode : Bool) : List main_call :=
  main_call.signaling_Runtime ::
    (if automatic_mode = true then [main_call.supervisor_RuntimeAuto]
      else [main_call.supervisor_Runtime])

/-- The first `iterations` iterations of the `while( 1 )` loop. -/
def main_loop (automatic_mode : Bool) : Nat → List main_call
  | 0 => []
  | iterations + 1 => main_iteration automatic_mode ++ main_loop automatic_mode iterations

/-- The calls of `main` up to the end of the given number of loop iterations;
the loop itself never ends. -/
def main (button : system_gpio_pin_state_t) (iterations : Nat) : List main_call :=
  main_bring_up ++ [main_call.system_gpio_get_pin_state_BUTTON_BLUE] ++
    main_loop (main_automatic_mode button) iterations

/-! ## Basic facts about the HAL model -/

theorem uint32_sub_eq_emod (a b : Nat) :
    ((uint32_sub (to_uint32 a) b : Nat) : Int) = ((a : Int) - (b : Int)) % 4294967296 := by
  unfold uint32_sub to_uint32 UINT32_RANGE
  omega

@[simp] theorem pins_set_pin_state (g g' : gpio_t) (s : system_gpio_pin_state_t) (hw : Board) :
    ((system_gpio_set_pin_state g s hw).pins g').state
      = if g' = g then s else (hw.pins g').state := by
  unfold system_gpio_set_pin_state
  by_cases h : g' = g
  · subst h; simp
  · simp [Function.update, h]

@[simp] theorem calls_set_pin_state (g : gpio_t) (s : system_gpio_pin_state_t) (hw : Board) :
    (system_gpio_set_pin_state g s hw).calls = hw.calls ++ [gpio_call.set_pin_state g s] := rfl

/-- What a `Runtime` poll does to the transmit channel. -/
theorem Runtime_tx_channel (ticker : Nat) (self : Signaling) (hw : Board) :
    (Signaling.Runtime ticker self hw).1.do_monitor_tx
        = (self.do_monitor_tx &&
            !decide (100 < uint32_sub (to_uint32 ticker) self.turn_on_tx_instant_ms)) ∧
      (Signaling.Runtime ticker self hw).1.turn_on_tx_instant_ms = self.turn_on_tx_instant_ms ∧
      (Signaling.Runtime ticker self hw).2.led_tx
        = if self.do_monitor_tx = true ∧
              100 < uint32_sub (to_uint32 ticker) self.turn_on_tx_instant_ms
          then SYSTEM_GPIO_PIN_STATE_LOW else hw.led_tx := by
  unfold Signaling.Runtime Board.led_tx Signaling.DURATION_TX_ON_MS
    Signaling.DURATION_RX_ON_MS Environment.GetLocalTimeMilliseconds
  by_cases h1 : self.do_monitor_tx = true <;>
  by_cases h2 : 100 < uint32_sub (to_uint32 ticker) self.turn_on_tx_instant_ms <;>
  by_cases h3 : self.do_monitor_rx = true <;>
  by_cases h4 : 100 < uint32_sub (to_uint32 ticker) self.turn_on_rx_instant_ms <;>
  simp [h1, h2, h3, h4]

/-- What a `Runtime` poll does to the receive channel. -/
theorem Runtime_rx_channel (ticker : Nat) (self : Signaling) (hw : Board) :
    (Signaling.Runtime ticker self hw).1.do_monitor_rx
        = (self.do_monitor_rx &&
            !decide (100 < uint32_sub (to_uint32 ticker) self.turn_on_rx_instant_ms)) ∧
      (Signaling.Runtime ticker self hw).1.turn_on_rx_instant_ms = self.turn_on_rx_instant_ms ∧
      (Signaling.Runtime ticker self hw).2.led_rx
        = if self.do_monitor_rx = true ∧
              100 < uint32_sub (to_uint32 ticker) self.turn_on_rx_instant_ms
          then SYSTEM_GPIO_PIN_STATE_LOW else hw.led_rx := by
  unfold Signaling.Runtime Board.led_rx Signaling.DURATION_TX_ON_MS
    Signaling.DURATION_RX_ON_MS Environment.GetLocalTimeMilliseconds
  by_cases h1 : self.do_monitor_tx = true <;>
  by_cases h2 : 100 < uint32_sub (to_uint32 ticker) self.turn_on_tx_instant_ms <;>
  by_cases h3 : self.do_monitor_rx = true <;>
  by_cases h4 : 100 < uint32_sub (to_uint32 ticker) self.turn_on_rx_instant_ms <;>
  simp [h1, h2, h3, h4]

/-- C1: one `Runtime()` poll at ticker reading `ticker`, from every state.  For
the transmit channel: if it is monitored and
`(ticker - turn_on_tx_instant_ms) mod 2^32 > 100`, then afterwards it is not
monitored and the transmit line is low; otherwise (not monitored, or elapsed
at most 100, exactly 100 included) its flag, its start time and its line are
unchanged.  The same holds for the receive channel. -/
theorem Runtime_single_step (ticker : Nat) (self : Signaling) (hw : Board) :
    (if self.do_monitor_tx = true ∧
          100 < ((ticker : Int) - (self.turn_on_tx_instant_ms : Int)) % 4294967296 then
        (Signaling.Runtime ticker self hw).1.do_monitor_tx = false ∧
        (Signaling.Runtime ticker self hw).2.led_tx = SYSTEM_GPIO_PIN_STATE_LOW
      else
        (Signaling.Runtime ticker self hw).1.do_monitor_tx = self.do_monitor_tx ∧
        (Signaling.Runtime ticker self hw).1.turn_on_tx_instant_ms = self.turn_on_tx_instant_ms ∧
        (Signaling.Runtime ticker self hw).2.led_tx = hw.led_tx) ∧
    (if self.do_monitor_rx = true ∧
          100 < ((ticker : Int) - (self.turn_on_rx_instant_ms : Int)) % 4294967296 then
        (Signaling.Runtime ticker self hw).1.do_monitor_rx = false ∧
        (Signaling.Runtime ticker self hw).2.led_rx = SYSTEM_GPIO_PIN_STATE_LOW
      else
        (Signaling.Runtime ticker self hw).1.do_monitor_rx = self.do_monitor_rx ∧
        (Signaling.Runtime ticker self hw).1.turn_on_rx_instant_ms = self.turn_on_rx_instant_ms ∧
        (Signaling.Runtime ticker self hw).2.led_rx = hw.led_rx) := by
  have htx := uint32_sub_eq_emod ticker self.turn_on_tx_instant_ms
  have hrx := uint32_sub_eq_emod ticker self.turn_on_rx_instant_ms
  obtain ⟨t1, t2, t3⟩ := Runtime_tx_channel ticker self hw
  obtain ⟨r1, r2, r3⟩ := Runtime_rx_channel ticker self hw
  rw [← htx, ← hrx, t1, t2, t3, r1, r2, r3]
  constructor
  · by_cases h1 : self.do_monitor_tx = true <;>
    by_cases h2 : 100 < uint32_sub (to_uint32 ticker) self.turn_on_tx_instant_ms <;>
    simp [h1, h2]
  · by_cases h1 : self.do_monitor_rx = true <;>
    by_cases h2 : 100 < uint32_sub (to_uint32 ticker) self.turn_on_rx_instant_ms <;>
    simp [h1, h2]

/-! ## Sequences of polls after one activation -/

theorem run_nil (st : Signaling × Board) : Signaling.run st [] = st := rfl

theorem run_cons (st : Signaling × Board) (e : SignalingOp × Nat)
    (es : List (SignalingOp × Nat)) :
    Signaling.run st (e :: es)
      = Signaling.run (Signaling.call e.1 (system_time_GetTicker e.2) st) es := rfl

theorem polls_cons (t : Nat) (ts : List Nat) :
    Signaling.polls (t :: ts) = (SignalingOp.Runtime, t) :: Signaling.polls ts := rfl

/-- The elapsed time that `Runtime` computes at time `t` for a channel switched
on at time `t0` is the true one, as long as less than `2^32` ms have passed. -/
theorem elapsed_eq (t0 t : Nat) (h0 : t0 ≤ t) (h1 : t - t0 < 4294967296) :
    uint32_sub (to_uint32 (system_time_GetTicker t)) (to_uint32 (system_time_GetTicker t0))
      = t - t0 := by
  unfold uint32_sub to_uint32 system_time_GetTicker UINT32_RANGE
  omega

/-- Polls leave an unmonitored receive channel as it is. -/
theorem polls_rx_unmonitored (ts : List Nat) (st : Signaling × Board)
    (h : st.1.do_monitor_rx = false) :
    (Signaling.run st (Signaling.polls ts)).1.do_monitor_rx = false ∧
      (Signaling.run st (Signaling.polls ts)).2.led_rx = st.2.led_rx := by
  induction ts generalizing st with
  | nil => exact ⟨h, rfl⟩
  | cons t ts ih =>
    rw [polls_cons, run_cons]
    obtain ⟨r1, _, r3⟩ := Runtime_rx_channel (system_time_GetTicker t) st.1 st.2
    have h1 : (Signaling.Runtime (system_time_GetTicker t) st.1 st.2).1.do_monitor_rx = false := by
      rw [r1, h]; rfl
    have h3 : (Signaling.Runtime (system_time_GetTicker t) st.1 st.2).2.led_rx = st.2.led_rx := by
      rw [r3, h]; simp
    obtain ⟨i1, i2⟩ := ih (Signaling.Runtime (system_time_GetTicker t) st.1 st.2) h1
    exact ⟨i1, i2.trans h3⟩

/-- Polls leave an unmonitored transmit channel as it is. -/
theorem polls_tx_unmonitored (ts : List Nat) (st : Signaling × Board)
    (h : st.1.do_monitor_tx = false) :
    (Signaling.run st (Signaling.polls ts)).1.do_monitor_tx = false ∧
      (Signaling.run st (Signaling.polls ts)).2.led_tx = st.2.led_tx := by
  induction ts generalizing st with
  | nil => exact ⟨h, rfl⟩
  | cons t ts ih =>
    rw [polls_cons, run_cons]
    obtain ⟨r1, _, r3⟩ := Runtime_tx_channel (system_time_GetTicker t) st.1 st.2
    have h1 : (Signaling.Runtime (system_time_GetTicker t) st.1 st.2).1.do_monitor_tx = false := by
      rw [r1, h]; rfl
    have h3 : (Signaling.Runtime (system_time_GetTicker t) st.1 st.2).2.led_tx = st.2.led_tx := by
      rw [r3, h]; simp
    obtain ⟨i1, i2⟩ := ih (Signaling.Runtime (system_time_GetTicker t) st.1 st.2) h1
    exact ⟨i1, i2.trans h3⟩

/-- Polls after a receive activation at `t0`: the line is high afterwards
exactly when no poll saw more than 100 ms elapsed. -/
theorem polls_rx_monitored (t0 : Nat) (ts : List Nat) (st : Signaling × Board)
    (hmon : st.1.do_monitor_rx = true)
    (hstart : st.1.turn_on_rx_instant_ms = to_uint32 (system_time_GetTicker t0))
    (hled : st.2.led_rx = SYSTEM_GPIO_PIN_STATE_HIGH)
    (hafter : ∀ t ∈ ts, t0 ≤ t ∧ t - t0 < 4294967296) :
    ((Signaling.run st (Signaling.polls ts)).2.led_rx = SYSTEM_GPIO_PIN_STATE_HIGH
      ↔ ∀ t ∈ ts, t - t0 ≤ 100) := by
  induction ts generalizing st with
  | nil => simp [Signaling.polls, run_nil, hled]
  | cons t ts ih =>
    rw [polls_cons, run_cons]
    obtain ⟨ht0, ht1⟩ := hafter t (List.mem_cons_self t ts)
    have hts : ∀ u ∈ ts, t0 ≤ u ∧ u - t0 < 4294967296 :=
      fun u hu => hafter u (List.mem_cons_of_mem t hu)
    obtain ⟨r1, r2, r3⟩ := Runtime_rx_channel (system_time_GetTicker t) st.1 st.2
    rw [hstart, elapsed_eq t0 t ht0 ht1, hmon] at r1 r3
    by_cases hlate : 100 < t - t0
    · have h1 : (Signaling.Runtime (system_time_GetTicker t) st.1 st.2).1.do_monitor_rx = false := by
        rw [r1]; simp [hlate]
      have h3 : (Signaling.Runtime (system_time_GetTicker t) st.1 st.2).2.led_rx
          = SYSTEM_GPIO_PIN_STATE_LOW := by
        rw [r3]; simp [hlate]
      obtain ⟨_, i2⟩ := polls_rx_unmonitored ts _ h1
      show (Signaling.run (Signaling.Runtime (system_time_GetTicker t) st.1 st.2)
        (Signaling.polls ts)).2.led_rx = SYSTEM_GPIO_PIN_STATE_HIGH ↔ _
      rw [i2, h3]
      constructor
      · intro h; cases h
      · intro h; exact absurd (h t (List.mem_cons_self t ts)) (by omega)
    · have h1 : (Signaling.Runtime (system_time_GetTicker t) st.1 st.2).1.do_monitor_rx = true := by
        rw [r1]; simp [hlate]
      have h3 : (Signaling.Runtime (system_time_GetTicker t) st.1 st.2).2.led_rx
          = SYSTEM_GPIO_PIN_STATE_HIGH := by
        rw [r3]; simp [hlate, hled]
      have := ih (Signaling.Runtime (system_time_GetTicker t) st.1 st.2) h1 (r2.trans hstart) h3 hts
      show (Signaling.run (Signaling.Runtime (system_time_GetTicker t) st.1 st.2)
        (Signaling.polls ts)).2.led_rx = SYSTEM_GPIO_PIN_STATE_HIGH ↔ _
      rw [this]
      constructor
      · intro h u hu
        rcases List.mem_cons.mp hu with rfl | hu
        · omega
        · exact h u hu
      · intro h u hu
        exact h u (List.mem_cons_of_mem t hu)
/-- Polls after a transmit activation at `t0`: the line is high afterwards
exactly when no poll saw more than 100 ms elapsed. -/
theorem polls_tx_monitored (t0 : Nat) (ts : List Nat) (st : Signaling × Board)
    (hmon : st.1.do_monitor_tx = true)
    (hstart : st.1.turn_on_tx_instant_ms = to_uint32 (system_time_GetTicker t0))
    (hled : st.2.led_tx = SYSTEM_GPIO_PIN_STATE_HIGH)
    (hafter : ∀ t ∈ ts, t0 ≤ t ∧ t - t0 < 4294967296) :
    ((Signaling.run st (Signaling.polls ts)).2.led_tx = SYSTEM_GPIO_PIN_STATE_HIGH
      ↔ ∀ t ∈ ts, t - t0 ≤ 100) := by
  induction ts generalizing st with
  | nil => simp [Signaling.polls, run_nil, hled]
  | cons t ts ih =>
    rw [polls_cons, run_cons]
    obtain ⟨ht0, ht1⟩ := hafter t (List.mem_cons_self t ts)
    have hts : ∀ u ∈ ts, t0 ≤ u ∧ u - t0 < 4294967296 :=
      fun u hu => hafter u (List.mem_cons_of_mem t hu)
    obtain ⟨r1, r2, r3⟩ := Runtime_tx_channel (system_time_GetTicker t) st.1 st.2
    rw [hstart, elapsed_eq t0 t ht0 ht1, hmon] at r1 r3
    by_cases hlate : 100 < t - t0
    · have h1 : (Signaling.Runtime (system_time_GetTicker t) st.1 st.2).1.do_monitor_tx = false := by
        rw [r1]; simp [hlate]
      have h3 : (Signaling.Runtime (system_time_GetTicker t) st.1 st.2).2.led_tx
          = SYSTEM_GPIO_PIN_STATE_LOW := by
        rw [r3]; simp [hlate]
      obtain ⟨_, i2⟩ := polls_tx_unmonitored ts _ h1
      show (Signaling.run (Signaling.Runtime (system_time_GetTicker t) st.1 st.2)
        (Signaling.polls ts)).2.led_tx = SYSTEM_GPIO_PIN_STATE_HIGH ↔ _
      rw [i2, h3]
      constructor
      · intro h; cases h
      · intro h; exact absurd (h t (List.mem_cons_self t ts)) (by omega)
    · have h1 : (Signaling.Runtime (system_time_GetTicker t) st.1 st.2).1.do_monitor_tx = true := by
        rw [r1]; simp [hlate]
      have h3 : (Signaling.Runtime (system_time_GetTicker t) st.1 st.2).2.led_tx
          = SYSTEM_GPIO_PIN_STATE_HIGH := by
        rw [r3]; simp [hlate, hled]
      have := ih (Signaling.Runtime (system_time_GetTicker t) st.1 st.2) h1 (r2.trans hstart) h3 hts
      show (Signaling.run (Signaling.Runtime (system_time_GetTicker t) st.1 st.2)
        (Signaling.polls ts)).2.led_tx = SYSTEM_GPIO_PIN_STATE_HIGH ↔ _
      rw [this]
      constructor
      · intro h u hu
        rcases List.mem_cons.mp hu with rfl | hu
        · omega
        · exact h u hu
      · intro h u hu
        exact h u (List.mem_cons_of_mem t hu)

/-- What `Rx` leaves in the receive channel. -/
theorem Rx_rx_channel (ticker : Nat) (self : Signaling) (hw : Board) :
    (Signaling.Rx ticker self hw).1.do_monitor_rx = true ∧
      (Signaling.Rx ticker self hw).1.turn_on_rx_instant_ms = to_uint32 ticker ∧
      (Signaling.Rx ticker self hw).2.led_rx = SYSTEM_GPIO_PIN_STATE_HIGH := by
  simp [Signaling.Rx, Board.led_rx, Environment.GetLocalTimeMilliseconds]

/-- What `Tx` leaves in the transmit channel. -/
theorem Tx_tx_channel (ticker : Nat) (self : Signaling) (hw : Board) :
    (Signaling.Tx ticker self hw).1.do_monitor_tx = true ∧
      (Signaling.Tx ticker self hw).1.turn_on_tx_instant_ms = to_uint32 ticker ∧
      (Signaling.Tx ticker self hw).2.led_tx = SYSTEM_GPIO_PIN_STATE_HIGH := by
  simp [Signaling.Tx, Board.led_tx, Environment.GetLocalTimeMilliseconds]

/-- C2: after a single `Rx()` (respectively `Tx()`) at time `t0`, followed only
by `Runtime()` polls at non-decreasing times `ts`, each less than `2^32` ms
after `t0`, the receive (respectively transmit) line is high after the `i`-th
poll if and only if every poll up to the `i`-th was made at most 100 ms after
`t0`: the line goes low at the first poll that observes more than 100 ms, and
not before. -/
theorem indicator_off_at_first_late_poll (self : Signaling) (hw : Board) (t0 : Nat)
    (ts : List Nat) (hsorted : List.Sorted (· ≤ ·) (t0 :: ts))
    (hrange : ∀ t ∈ ts, t - t0 < 4294967296) (i : Nat) :
    ((Signaling.run (Signaling.Rx (system_time_GetTicker t0) self hw)
          (Signaling.polls (ts.take i))).2.led_rx = SYSTEM_GPIO_PIN_STATE_HIGH
        ↔ ∀ t ∈ ts.take i, t - t0 ≤ 100) ∧
    ((Signaling.run (Signaling.Tx (system_time_GetTicker t0) self hw)
          (Signaling.polls (ts.take i))).2.led_tx = SYSTEM_GPIO_PIN_STATE_HIGH
        ↔ ∀ t ∈ ts.take i, t - t0 ≤ 100) := by
  have hafter : ∀ t ∈ ts.take i, t0 ≤ t ∧ t - t0 < 4294967296 := by
    intro t ht
    have hmem : t ∈ ts := List.mem_of_mem_take ht
    exact ⟨(List.sorted_cons.mp hsorted).1 t hmem, hrange t hmem⟩
  obtain ⟨r1, r2, r3⟩ := Rx_rx_channel (system_time_GetTicker t0) self hw
  obtain ⟨x1, x2, x3⟩ := Tx_tx_channel (system_time_GetTicker t0) self hw
  exact ⟨polls_rx_monitored t0 (ts.take i) _ r1 r2 r3 hafter,
    polls_tx_monitored t0 (ts.take i) _ x1 x2 x3 hafter⟩

/-- The scenario of C2 on the constructed object: `Rx()` at 0 ms, then polls at
50 ms and 101 ms. -/
theorem indicator_off_at_first_late_poll_witness :
    List.Sorted (· ≤ ·) (0 :: [50, 101]) ∧ (∀ t ∈ [50, 101], t - 0 < 4294967296) ∧
    (((Signaling.run (Signaling.Rx (system_time_GetTicker 0) Signaling.new Board.reset)
          (Signaling.polls ([50, 101].take 2))).2.led_rx = SYSTEM_GPIO_PIN_STATE_HIGH
        ↔ ∀ t ∈ [50, 101].take 2, t - 0 ≤ 100) ∧
    ((Signaling.run (Signaling.Tx (system_time_GetTicker 0) Signaling.new Board.reset)
          (Signaling.polls ([50, 101].take 2))).2.led_tx = SYSTEM_GPIO_PIN_STATE_HIGH
        ↔ ∀ t ∈ [50, 101].take 2, t - 0 ≤ 100)) :=
  ⟨by decide, by decide,
    indicator_off_at_first_late_poll Signaling.new Board.reset 0 [50, 101]
      (by decide) (by decide) 2⟩

/-- The scenario of the specification, evaluated: `Rx()` at 0 ms switches the
receive line on, a poll at 50 ms leaves it on, a poll at 101 ms switches it
off. -/
theorem rx_scenario_0_50_101 :
    (Signaling.run (Signaling.new, Board.reset) [(SignalingOp.Rx, 0)]).2.led_rx
        = SYSTEM_GPIO_PIN_STATE_HIGH ∧
    (Signaling.run (Signaling.new, Board.reset)
        [(SignalingOp.Rx, 0), (SignalingOp.Runtime, 50)]).2.led_rx
        = SYSTEM_GPIO_PIN_STATE_HIGH ∧
    (Signaling.run (Signaling.new, Board.reset)
        [(SignalingOp.Rx, 0), (SignalingOp.Runtime, 50), (SignalingOp.Runtime, 101)]).2.led_rx
        = SYSTEM_GPIO_PIN_STATE_LOW := by
  decide

/-! ## Repeated activations -/

/-- While the transmit channel is monitored with start time `last`, a sequence
of `Tx` calls and of polls made soon enough after the latest `Tx` keeps the
transmit line high after each of its events. -/
theorem tx_on_along (rest : List (SignalingOp × Nat)) (last : Nat) (st : Signaling × Board)
    (hmon : st.1.do_monitor_tx = true)
    (hstart : st.1.turn_on_tx_instant_ms = to_uint32 (system_time_GetTicker last))
    (hled : st.2.led_tx = SYSTEM_GPIO_PIN_STATE_HIGH)
    (hops : ∀ e ∈ rest, e.1 = SignalingOp.Tx ∨ e.1 = SignalingOp.Runtime)
    (hsorted : List.Sorted (· ≤ ·) (last :: rest.map Prod.snd))
    (hsoon : polls_soon_after_Tx last rest = true) (k : Nat) :
    (Signaling.run st (rest.take k)).2.led_tx = SYSTEM_GPIO_PIN_STATE_HIGH := by
  induction rest generalizing last st k with
  | nil => simpa [run_nil] using hled
  | cons e rest ih =>
    cases k with
    | zero => simpa [run_nil] using hled
    | succ k =>
      rw [List.take_succ_cons, run_cons]
      obtain ⟨op, t⟩ := e
      have hrest : ∀ e ∈ rest, e.1 = SignalingOp.Tx ∨ e.1 = SignalingOp.Runtime :=
        fun e he => hops e (List.mem_cons_of_mem _ he)
      rw [List.map_cons, List.sorted_cons, List.sorted_cons] at hsorted
      obtain ⟨hlast, ht, hs⟩ := hsorted
      have hlt : last ≤ t := hlast t (List.mem_cons_self _ _)
      rcases hops (op, t) (List.mem_cons_self _ _) with hop | hop
      · simp only at hop
        subst hop
        obtain ⟨x1, x2, x3⟩ := Tx_tx_channel (system_time_GetTicker t) st.1 st.2
        have hs2 : List.Sorted (· ≤ ·) (t :: rest.map Prod.snd) :=
          List.sorted_cons.mpr ⟨ht, hs⟩
        exact ih t _ x1 x2 x3 hrest hs2 (by simpa [polls_soon_after_Tx] using hsoon) k
      · simp only at hop
        subst hop
        simp only [polls_soon_after_Tx, Signaling.DURATION_TX_ON_MS, Bool.and_eq_true,
          decide_eq_true_eq] at hsoon
        obtain ⟨hnear, hsoon⟩ := hsoon
        obtain ⟨r1, r2, r3⟩ := Runtime_tx_channel (system_time_GetTicker t) st.1 st.2
        rw [hstart, elapsed_eq last t hlt (by omega), hmon] at r1 r3
        have hnot : ¬ 100 < t - last := by omega
        have h1 : (Signaling.Runtime (system_time_GetTicker t) st.1 st.2).1.do_monitor_tx
            = true := by
          rw [r1]; simp [hnot]
        have h3 : (Signaling.Runtime (system_time_GetTicker t) st.1 st.2).2.led_tx
            = SYSTEM_GPIO_PIN_STATE_HIGH := by
          rw [r3]; simp [hnot, hled]
        have hs2 : List.Sorted (· ≤ ·) (last :: rest.map Prod.snd) :=
          List.sorted_cons.mpr ⟨fun b hb => hlast b (List.mem_cons_of_mem _ hb), hs⟩
        exact ih last _ h1 (r2.trans hstart) h3 hrest hs2 hsoon k

/-- C3: in a sequence of `Tx()` and `Runtime()` events with non-decreasing
times that starts with a `Tx()`, if every poll is made less than 100 ms after
the most recent `Tx()` before it, the transmit line is high after every event
of the sequence. -/
theorem tx_indicator_stays_on (self : Signaling) (hw : Board) (t0 : Nat)
    (rest : List (SignalingOp × Nat))
    (hops : ∀ e ∈ rest, e.1 = SignalingOp.Tx ∨ e.1 = SignalingOp.Runtime)
    (hsorted : List.Sorted (· ≤ ·) (t0 :: rest.map Prod.snd))
    (hsoon : polls_soon_after_Tx t0 rest = true) (k : Nat) :
    (Signaling.run (self, hw) (((SignalingOp.Tx, t0) :: rest).take (k + 1))).2.led_tx
      = SYSTEM_GPIO_PIN_STATE_HIGH := by
  rw [List.take_succ_cons, run_cons]
  obtain ⟨x1, x2, x3⟩ := Tx_tx_channel (system_time_GetTicker t0) self hw
  exact tx_on_along rest t0 _ x1 x2 x3 hops hsorted hsoon k

/-- C3 at a concrete sequence: `Tx()` at 0, polls at 60 and 99, `Tx()` at 150,
poll at 249 ms. -/
theorem tx_indicator_stays_on_witness :
    (∀ e ∈ [(SignalingOp.Runtime, 60), (SignalingOp.Runtime, 99), (SignalingOp.Tx, 150),
        (SignalingOp.Runtime, 249)], e.1 = SignalingOp.Tx ∨ e.1 = SignalingOp.Runtime) ∧
    List.Sorted (· ≤ ·) (0 :: [(SignalingOp.Runtime, 60), (SignalingOp.Runtime, 99),
        (SignalingOp.Tx, 150), (SignalingOp.Runtime, 249)].map Prod.snd) ∧
    polls_soon_after_Tx 0 [(SignalingOp.Runtime, 60), (SignalingOp.Runtime, 99),
        (SignalingOp.Tx, 150), (SignalingOp.Runtime, 249)] = true ∧
    (Signaling.run (Signaling.new, Board.reset)
        (((SignalingOp.Tx, 0) :: [(SignalingOp.Runtime, 60), (SignalingOp.Runtime, 99),
          (SignalingOp.Tx, 150), (SignalingOp.Runtime, 249)]).take (4 + 1))).2.led_tx
      = SYSTEM_GPIO_PIN_STATE_HIGH :=
  ⟨by decide, by decide, by decide,
    tx_indicator_stays_on Signaling.new Board.reset 0 _ (by decide) (by decide) (by decide) 4⟩

/-! ## Worst-case on-duration of the receive indicator -/

theorem run_append (st : Signaling × Board) (es fs : List (SignalingOp × Nat)) :
    Signaling.run st (es ++ fs) = Signaling.run (Signaling.run st es) fs := by
  unfold Signaling.run
  rw [List.foldl_append]

/-- A call other than `Rx`, `StartContinuousTx` and `StopContinuousTx` keeps
`RxTimedOrOff`. -/
theorem call_keeps_RxTimedOrOff (t0 : Nat) (op : SignalingOp) (ticker : Nat)
    (st : Signaling × Board) (hinv : RxTimedOrOff t0 st)
    (hop : op ≠ SignalingOp.Rx ∧ op ≠ SignalingOp.StartContinuousTx ∧
      op ≠ SignalingOp.StopContinuousTx) :
    RxTimedOrOff t0 (Signaling.call op ticker st) := by
  obtain ⟨h1, h2, h3⟩ := hop
  cases op with
  | Rx => exact absurd rfl h1
  | StartContinuousTx => exact absurd rfl h2
  | StopContinuousTx => exact absurd rfl h3
  | StartCapture =>
    simpa [RxTimedOrOff, Signaling.call, Signaling.StartCapture, Board.led_rx] using hinv
  | StopCapture =>
    simpa [RxTimedOrOff, Signaling.call, Signaling.StopCapture, Board.led_rx] using hinv
  | Tx =>
    simpa [RxTimedOrOff, Signaling.call, Signaling.Tx, Board.led_rx] using hinv
  | Runtime =>
    obtain ⟨r1, r2, r3⟩ := Runtime_rx_channel ticker st.1 st.2
    show RxTimedOrOff t0 (Signaling.Runtime ticker st.1 st.2)
    unfold RxTimedOrOff
    rw [r1, r2, r3]
    rcases hinv with ⟨a, b, c⟩ | ⟨a, c⟩
    · by_cases h : 100 < uint32_sub (to_uint32 ticker) st.1.turn_on_rx_instant_ms
      · right; simp [a, h]
      · left; exact ⟨by simp [a, h], b, by simp [a, c, h]⟩
    · right; simp [a, c]

/-- A sequence of such calls keeps `RxTimedOrOff`. -/
theorem run_keeps_RxTimedOrOff (t0 : Nat) (mid : List (SignalingOp × Nat))
    (st : Signaling × Board) (hinv : RxTimedOrOff t0 st)
    (hmid : ∀ e ∈ mid, e.1 ≠ SignalingOp.Rx ∧ e.1 ≠ SignalingOp.StartContinuousTx ∧
      e.1 ≠ SignalingOp.StopContinuousTx) :
    RxTimedOrOff t0 (Signaling.run st mid) := by
  induction mid generalizing st with
  | nil => exact hinv
  | cons e mid ih =>
    rw [run_cons]
    exact ih _ (call_keeps_RxTimedOrOff t0 e.1 _ st hinv (hmid e (List.mem_cons_self _ _)))
      (fun e he => hmid e (List.mem_cons_of_mem _ he))

/-- C4, as the code has it: in every sequence of `Signaling` operations, if
`Rx()` was called at time `t0` and since then neither `Rx()` nor
`StartContinuousTx()` nor `StopContinuousTx()` has been called, the receive
line is low after a `Runtime()` poll at a time `t` with
`100 < t - t0 < 2^32`.  (The order of the other timestamps plays no role.) -/
theorem rx_indicator_off_after_late_poll (st : Signaling × Board)
    (pre mid : List (SignalingOp × Nat)) (t0 t : Nat)
    (hmid : ∀ e ∈ mid, e.1 ≠ SignalingOp.Rx ∧ e.1 ≠ SignalingOp.StartContinuousTx ∧
      e.1 ≠ SignalingOp.StopContinuousTx)
    (hlate : 100 < t - t0) (hrange : t - t0 < 4294967296) :
    (Signaling.run st (pre ++ ((SignalingOp.Rx, t0) :: mid) ++ [(SignalingOp.Runtime, t)])).2.led_rx
      = SYSTEM_GPIO_PIN_STATE_LOW := by
  have key : ∀ s1 : Signaling × Board, RxTimedOrOff t0 s1 →
      (Signaling.run s1 [(SignalingOp.Runtime, t)]).2.led_rx = SYSTEM_GPIO_PIN_STATE_LOW := by
    intro s1 hinv
    rw [run_cons, run_nil]
    obtain ⟨_, _, r3⟩ := Runtime_rx_channel (system_time_GetTicker t) s1.1 s1.2
    show (Signaling.Runtime (system_time_GetTicker t) s1.1 s1.2).2.led_rx = _
    rw [r3]
    rcases hinv with ⟨a, b, _⟩ | ⟨a, c⟩
    · rw [b, elapsed_eq t0 t (by omega) hrange]
      simp [a, hlate]
    · simp [a, c]
  rw [run_append, run_append]
  apply key
  rw [run_cons]
  exact run_keeps_RxTimedOrOff t0 mid _
    (Or.inl (Rx_rx_channel (system_time_GetTicker t0) _ _)) hmid

/-- C4 at a concrete sequence with a `Tx()`, a capture and an early poll
between the `Rx()` at 5 ms and the late poll at 106 ms. -/
theorem rx_indicator_off_after_late_poll_witness :
    (∀ e ∈ [(SignalingOp.Tx, 20), (SignalingOp.StartCapture, 30), (SignalingOp.Runtime, 40)],
      e.1 ≠ SignalingOp.Rx ∧ e.1 ≠ SignalingOp.StartContinuousTx ∧
        e.1 ≠ SignalingOp.StopContinuousTx) ∧
    100 < 106 - 5 ∧ 106 - 5 < 4294967296 ∧
    (Signaling.run (Signaling.new, Board.reset)
      ([(SignalingOp.StopContinuousTx, 1)] ++
        ((SignalingOp.Rx, 5) ::
          [(SignalingOp.Tx, 20), (SignalingOp.StartCapture, 30), (SignalingOp.Runtime, 40)]) ++
        [(SignalingOp.Runtime, 106)])).2.led_rx = SYSTEM_GPIO_PIN_STATE_LOW :=
  ⟨by decide, by decide, by decide,
    rx_indicator_off_after_late_poll (Signaling.new, Board.reset)
      [(SignalingOp.StopContinuousTx, 1)] _ 5 106 (by decide) (by decide) (by decide)⟩

/-- C4 as stated fails: after `Rx()` at 0 ms, `StartContinuousTx()` at 10 ms
stops the monitoring of the receive channel without driving its line low, and
the poll at 200 ms, with `100 < 200 - 0 < 2^32`, leaves the receive line high.
The timestamps are non-decreasing and no `Rx()` follows the one at 0 ms. -/
theorem rx_indicator_off_after_late_poll_counterexample :
    List.Sorted (· ≤ ·) ([(SignalingOp.Rx, 0), (SignalingOp.StartContinuousTx, 10),
        (SignalingOp.Runtime, 200)].map Prod.snd) ∧
    (∀ e ∈ [(SignalingOp.StartContinuousTx, 10)], e.1 ≠ SignalingOp.Rx) ∧
    100 < 200 - 0 ∧ 200 - 0 < 4294967296 ∧
    (Signaling.run (Signaling.new, Board.reset)
      ([] ++ ((SignalingOp.Rx, 0) :: [(SignalingOp.StartContinuousTx, 10)]) ++
        [(SignalingOp.Runtime, 200)])).2.led_rx = SYSTEM_GPIO_PIN_STATE_HIGH ∧
    (Signaling.run (Signaling.new, Board.reset)
      ([] ++ ((SignalingOp.Rx, 0) :: [(SignalingOp.StartContinuousTx, 10)]) ++
        [(SignalingOp.Runtime, 200)])).2.led_rx ≠ SYSTEM_GPIO_PIN_STATE_LOW := by
  decide

/-! ## Antenna selector -/

@[simp] theorem pins_init_direction_state (g g' : gpio_t) (d : system_gpio_pin_direction_t)
    (s : system_gpio_pin_state_t) (hw : Board) :
    (system_gpio_init_direction_state g d s hw).pins g'
      = if g' = g then { direction := d, state := s } else hw.pins g' := by
  unfold system_gpio_init_direction_state
  by_cases h : g' = g
  · subst h; simp
  · simp [Function.update, h]

@[simp] theorem calls_init_direction_state (g : gpio_t) (d : system_gpio_pin_direction_t)
    (s : system_gpio_pin_state_t) (hw : Board) :
    (system_gpio_init_direction_state g d s hw).calls
      = hw.calls ++ [gpio_call.init_direction_state g d s] := rfl

theorem antenna_run_nil (st : AntennaSelector × Board) : AntennaSelector.run st [] = st := rfl

theorem antenna_run_cons (st : AntennaSelector × Board) (op : AntennaOp) (ops : List AntennaOp) :
    AntennaSelector.run st (op :: ops)
      = AntennaSelector.run (AntennaSelector.call op st) ops := rfl

/-- A selection on a selector that is not yet initialised configures the lines
and then sets the levels. -/
theorem call_first (op : AntennaOp) (st : AntennaSelector × Board)
    (h : st.1.has_been_init = false) :
    (AntennaSelector.call op st).1.has_been_init = true ∧
      (AntennaSelector.call op st).2.calls
        = st.2.calls ++ AntennaSelector.configuration_calls ++ op.level_calls := by
  cases op <;>
  simp [AntennaSelector.call, AntennaSelector.SelectAntenna1, AntennaSelector.SelectAntenna2,
    AntennaSelector.init_if_not, h, AntennaSelector.configuration_calls, AntennaOp.level_calls]

/-- A selection on an initialised selector only sets the levels. -/
theorem call_later (op : AntennaOp) (st : AntennaSelector × Board)
    (h : st.1.has_been_init = true) :
    (AntennaSelector.call op st).1.has_been_init = true ∧
      (AntennaSelector.call op st).2.calls = st.2.calls ++ op.level_calls := by
  cases op <;>
  simp [AntennaSelector.call, AntennaSelector.SelectAntenna1, AntennaSelector.SelectAntenna2,
    AntennaSelector.init_if_not, h, AntennaOp.level_calls]

/-- A sequence of selections on an initialised selector only sets levels. -/
theorem run_later (ops : List AntennaOp) (st : AntennaSelector × Board)
    (h : st.1.has_been_init = true) :
    (AntennaSelector.run st ops).1.has_been_init = true ∧
      (AntennaSelector.run st ops).2.calls
        = st.2.calls ++ ops.flatMap AntennaOp.level_calls := by
  induction ops generalizing st with
  | nil => simp [antenna_run_nil, h]
  | cons op ops ih =>
    rw [antenna_run_cons]
    obtain ⟨c1, c2⟩ := call_later op st h
    obtain ⟨i1, i2⟩ := ih _ c1
    exact ⟨i1, by rw [i2, c2, List.flatMap_cons, List.append_assoc]⟩

theorem level_calls_no_configuration (ops : List AntennaOp) :
    (ops.flatMap AntennaOp.level_calls).countP gpio_call.is_configuration = 0 := by
  induction ops with
  | nil => rfl
  | cons op ops ih =>
    rw [List.flatMap_cons, List.countP_append, ih]
    cases op <;> rfl

/-- C5: in every non-empty sequence of `SelectAntenna1`/`SelectAntenna2` calls
on a selector that is not yet initialised, the HAL calls made are: the
configuration of both control lines as outputs at low level, once, by the
first call and before it sets any level; then only level settings, two per
call.  So exactly two configuration calls are added to the record, and
`has_been_init` is true after the first call and after each later one. -/
theorem antenna_configured_once (self : AntennaSelector) (hw : Board) (op : AntennaOp)
    (rest : List AntennaOp) (h : self.has_been_init = false) :
    (AntennaSelector.run (self, hw) (op :: rest)).2.calls
        = hw.calls ++
          [gpio_call.init_direction_state gpio_t.antenna_selector_ctrl
              SYSTEM_GPIO_PIN_DIRECTION_OUTPUT SYSTEM_GPIO_PIN_STATE_LOW,
            gpio_call.init_direction_state gpio_t.antenna_selector_n_ctrl
              SYSTEM_GPIO_PIN_DIRECTION_OUTPUT SYSTEM_GPIO_PIN_STATE_LOW] ++
          op.level_calls ++ rest.flatMap AntennaOp.level_calls ∧
      (AntennaSelector.run (self, hw) (op :: rest)).2.calls.countP gpio_call.is_configuration
        = hw.calls.countP gpio_call.is_configuration + 2 ∧
      (AntennaSelector.call op (self, hw)).2.calls
        = hw.calls ++ AntennaSelector.configuration_calls ++ op.level_calls ∧
      (∀ k, (AntennaSelector.run (self, hw) ((op :: rest).take (k + 1))).1.has_been_init
        = true) := by
  obtain ⟨c1, c2⟩ := call_first op (self, hw) h
  have htrace : (AntennaSelector.run (self, hw) (op :: rest)).2.calls
      = hw.calls ++ AntennaSelector.configuration_calls ++ op.level_calls ++
        rest.flatMap AntennaOp.level_calls := by
    rw [antenna_run_cons, (run_later rest _ c1).2, c2]
  refine ⟨htrace, ?_, c2, ?_⟩
  · rw [htrace, List.countP_append, List.countP_append, List.countP_append,
      level_calls_no_configuration]
    cases op <;> rfl
  · intro k
    rw [List.take_succ_cons, antenna_run_cons]
    exact (run_later _ _ c1).1

/-- C5 at a concrete sequence on a fresh board. -/
theorem antenna_configured_once_witness :
    ({ has_been_init := false } : AntennaSelector).has_been_init = false ∧
    (AntennaSelector.run ({ has_been_init := false }, Board.reset)
        (AntennaOp.SelectAntenna2 :: [AntennaOp.SelectAntenna1])).2.calls
      = [gpio_call.init_direction_state gpio_t.antenna_selector_ctrl
            SYSTEM_GPIO_PIN_DIRECTION_OUTPUT SYSTEM_GPIO_PIN_STATE_LOW,
          gpio_call.init_direction_state gpio_t.antenna_selector_n_ctrl
            SYSTEM_GPIO_PIN_DIRECTION_OUTPUT SYSTEM_GPIO_PIN_STATE_LOW,
          gpio_call.set_pin_state gpio_t.antenna_selector_ctrl SYSTEM_GPIO_PIN_STATE_HIGH,
          gpio_call.set_pin_state gpio_t.antenna_selector_n_ctrl SYSTEM_GPIO_PIN_STATE_LOW,
          gpio_call.set_pin_state gpio_t.antenna_selector_ctrl SYSTEM_GPIO_PIN_STATE_LOW,
          gpio_call.set_pin_state gpio_t.antenna_selector_n_ctrl SYSTEM_GPIO_PIN_STATE_HIGH] :=
  ⟨rfl, (antenna_configured_once { has_been_init := false } Board.reset
    AntennaOp.SelectAntenna2 [AntennaOp.SelectAntenna1] rfl).1⟩

/-- C6: from every prior state, `SelectAntenna1` leaves `antenna_selector_ctrl`
low and `antenna_selector_n_ctrl` high, and `SelectAntenna2` leaves
`antenna_selector_ctrl` high and `antenna_selector_n_ctrl` low; after either
call the two lines are at different levels. -/
theorem antenna_lines_exclusive (self : AntennaSelector) (hw : Board) (op : AntennaOp) :
    ((AntennaSelector.SelectAntenna1 self hw).2.pins gpio_t.antenna_selector_ctrl).state
        = SYSTEM_GPIO_PIN_STATE_LOW ∧
    ((AntennaSelector.SelectAntenna1 self hw).2.pins gpio_t.antenna_selector_n_ctrl).state
        = SYSTEM_GPIO_PIN_STATE_HIGH ∧
    ((AntennaSelector.SelectAntenna2 self hw).2.pins gpio_t.antenna_selector_ctrl).state
        = SYSTEM_GPIO_PIN_STATE_HIGH ∧
    ((AntennaSelector.SelectAntenna2 self hw).2.pins gpio_t.antenna_selector_n_ctrl).state
        = SYSTEM_GPIO_PIN_STATE_LOW ∧
    ((AntennaSelector.call op (self, hw)).2.pins gpio_t.antenna_selector_ctrl).state
        ≠ ((AntennaSelector.call op (self, hw)).2.pins gpio_t.antenna_selector_n_ctrl).state := by
  refine ⟨?_, ?_, ?_, ?_, ?_⟩
  · simp [AntennaSelector.SelectAntenna1]
  · simp [AntennaSelector.SelectAntenna1]
  · simp [AntennaSelector.SelectAntenna2]
  · simp [AntennaSelector.SelectAntenna2]
  · cases op <;>
    simp [AntennaSelector.call, AntennaSelector.SelectAntenna1, AntennaSelector.SelectAntenna2]

/-! ## Continuous transmission -/

/-- A poll does nothing at all when neither channel is monitored. -/
theorem Runtime_unmonitored (ticker : Nat) (self : Signaling) (hw : Board)
    (htx : self.do_monitor_tx = false) (hrx : self.do_monitor_rx = false) :
    Signaling.Runtime ticker self hw = (self, hw) := by
  simp [Signaling.Runtime, htx, hrx]

theorem polls_unmonitored (ts : List Nat) (st : Signaling × Board)
    (htx : st.1.do_monitor_tx = false) (hrx : st.1.do_monitor_rx = false) :
    Signaling.run st (Signaling.polls ts) = st := by
  induction ts with
  | nil => rfl
  | cons t ts ih =>
    rw [polls_cons, run_cons]
    show Signaling.run (Signaling.Runtime (system_time_GetTicker t) st.1 st.2) _ = st
    rw [Runtime_unmonitored _ _ _ htx hrx]
    exact ih

/-- C7: from every state, `StartContinuousTx()` followed by
`StopContinuousTx()` leaves the transmit line low and both monitoring flags
false; a later `Runtime()` poll, at any ticker reading, and any sequence of
such polls, then leaves the whole state as it is. -/
theorem continuous_tx_start_then_stop (self : Signaling) (hw : Board) (ticker : Nat)
    (ts : List Nat) :
    (Signaling.StartThenStopContinuousTx self hw).2.led_tx = SYSTEM_GPIO_PIN_STATE_LOW ∧
    (Signaling.StartThenStopContinuousTx self hw).1.do_monitor_tx = false ∧
    (Signaling.StartThenStopContinuousTx self hw).1.do_monitor_rx = false ∧
    Signaling.Runtime ticker (Signaling.StartThenStopContinuousTx self hw).1
        (Signaling.StartThenStopContinuousTx self hw).2
      = Signaling.StartThenStopContinuousTx self hw ∧
    Signaling.run (Signaling.StartThenStopContinuousTx self hw) (Signaling.polls ts)
      = Signaling.StartThenStopContinuousTx self hw := by
  have h1 : (Signaling.StartThenStopContinuousTx self hw).1.do_monitor_tx = false := rfl
  have h2 : (Signaling.StartThenStopContinuousTx self hw).1.do_monitor_rx = false := rfl
  refine ⟨?_, h1, h2, Runtime_unmonitored _ _ _ h1 h2, polls_unmonitored _ _ h1 h2⟩
  simp [Signaling.StartThenStopContinuousTx, Signaling.StopContinuousTx, Board.led_tx]

/-- A call other than `Tx`, `StartContinuousTx` and `StopContinuousTx` keeps
the transmit channel unmonitored with its line high. -/
theorem call_keeps_tx_forced_on (op : SignalingOp) (ticker : Nat) (st : Signaling × Board)
    (hmon : st.1.do_monitor_tx = false) (hled : st.2.led_tx = SYSTEM_GPIO_PIN_STATE_HIGH)
    (hop : op ≠ SignalingOp.Tx ∧ op ≠ SignalingOp.StartContinuousTx ∧
      op ≠ SignalingOp.StopContinuousTx) :
    (Signaling.call op ticker st).1.do_monitor_tx = false ∧
      (Signaling.call op ticker st).2.led_tx = SYSTEM_GPIO_PIN_STATE_HIGH := by
  obtain ⟨h1, h2, h3⟩ := hop
  cases op with
  | Tx => exact absurd rfl h1
  | StartContinuousTx => exact absurd rfl h2
  | StopContinuousTx => exact absurd rfl h3
  | StartCapture =>
    simpa [Signaling.call, Signaling.StartCapture, Board.led_tx] using And.intro hmon hled
  | StopCapture =>
    simpa [Signaling.call, Signaling.StopCapture, Board.led_tx] using And.intro hmon hled
  | Rx =>
    simpa [Signaling.call, Signaling.Rx, Board.led_tx] using And.intro hmon hled
  | Runtime =>
    obtain ⟨r1, _, r3⟩ := Runtime_tx_channel ticker st.1 st.2
    show (Signaling.Runtime ticker st.1 st.2).1.do_monitor_tx = false ∧
      (Signaling.Runtime ticker st.1 st.2).2.led_tx = SYSTEM_GPIO_PIN_STATE_HIGH
    rw [r1, r3]
    simp [hmon, hled]

theorem run_keeps_tx_forced_on (events : List (SignalingOp × Nat)) (st : Signaling × Board)
    (hmon : st.1.do_monitor_tx = false) (hled : st.2.led_tx = SYSTEM_GPIO_PIN_STATE_HIGH)
    (hops : ∀ e ∈ events, e.1 ≠ SignalingOp.Tx ∧ e.1 ≠ SignalingOp.StartContinuousTx ∧
      e.1 ≠ SignalingOp.StopContinuousTx) :
    (Signaling.run st events).1.do_monitor_tx = false ∧
      (Signaling.run st events).2.led_tx = SYSTEM_GPIO_PIN_STATE_HIGH := by
  induction events generalizing st with
  | nil => exact ⟨hmon, hled⟩
  | cons e events ih =>
    rw [run_cons]
    obtain ⟨c1, c2⟩ := call_keeps_tx_forced_on e.1 (system_time_GetTicker e.2) st hmon hled
      (hops e (List.mem_cons_self _ _))
    exact ih _ c1 c2 (fun e he => hops e (List.mem_cons_of_mem _ he))

/-- C8: from every state, after `StartContinuousTx()` the transmit line is
high and the transmit channel is not monitored, and this still holds after
each event of any sequence of `Runtime()` polls, at any times, and of other
calls that are not `Tx()`, `StartContinuousTx()` or `StopContinuousTx()`: no
elapsed time turns the line off. -/
theorem continuous_tx_bypasses_timer (self : Signaling) (hw : Board)
    (events : List (SignalingOp × Nat))
    (hops : ∀ e ∈ events, e.1 ≠ SignalingOp.Tx ∧ e.1 ≠ SignalingOp.StartContinuousTx ∧
      e.1 ≠ SignalingOp.StopContinuousTx) (k : Nat) :
    (Signaling.run (Signaling.StartContinuousTx self hw) (events.take k)).2.led_tx
        = SYSTEM_GPIO_PIN_STATE_HIGH ∧
      (Signaling.run (Signaling.StartContinuousTx self hw) (events.take k)).1.do_monitor_tx
        = false := by
  have hmon : (Signaling.StartContinuousTx self hw).1.do_monitor_tx = false := rfl
  have hled : (Signaling.StartContinuousTx self hw).2.led_tx = SYSTEM_GPIO_PIN_STATE_HIGH := by
    simp [Signaling.StartContinuousTx, Board.led_tx]
  obtain ⟨r1, r2⟩ := run_keeps_tx_forced_on (events.take k) _ hmon hled
    (fun e he => hops e (List.mem_of_mem_take he))
  exact ⟨r2, r1⟩

/-- C8 at a concrete sequence: `Tx()` at 3 ms, `StartContinuousTx()`, then
polls at 104 ms, at 5000 ms and, after an `Rx()`, at `2^32 + 7` ms. -/
theorem continuous_tx_bypasses_timer_witness :
    (∀ e ∈ [(SignalingOp.Runtime, 104), (SignalingOp.Runtime, 5000), (SignalingOp.Rx, 6000),
        (SignalingOp.Runtime, 4294967303)],
      e.1 ≠ SignalingOp.Tx ∧ e.1 ≠ SignalingOp.StartContinuousTx ∧
        e.1 ≠ SignalingOp.StopContinuousTx) ∧
    (Signaling.run
        (Signaling.StartContinuousTx (Signaling.Tx 3 Signaling.new Board.reset).1
          (Signaling.Tx 3 Signaling.new Board.reset).2)
        ([(SignalingOp.Runtime, 104), (SignalingOp.Runtime, 5000), (SignalingOp.Rx, 6000),
          (SignalingOp.Runtime, 4294967303)].take 4)).2.led_tx = SYSTEM_GPIO_PIN_STATE_HIGH :=
  ⟨by decide,
    (continuous_tx_bypasses_timer (Signaling.Tx 3 Signaling.new Board.reset).1
      (Signaling.Tx 3 Signaling.new Board.reset).2 _ (by decide) 4).1⟩

/-! ## Frame conditions and independence of the two channels -/

/-- The transmit channel after a poll is a function of the transmit channel
before it. -/
theorem Runtime_transmit_view (ticker : Nat) (self : Signaling) (hw : Board) :
    Channel.transmit.view (Signaling.Runtime ticker self hw)
      = if (Channel.transmit.view (self, hw)).1 = true ∧
            100 < uint32_sub (to_uint32 ticker) (Channel.transmit.view (self, hw)).2.1
        then (false, (Channel.transmit.view (self, hw)).2.1, SYSTEM_GPIO_PIN_STATE_LOW)
        else Channel.transmit.view (self, hw) := by
  obtain ⟨r1, r2, r3⟩ := Runtime_tx_channel ticker self hw
  simp only [Channel.view]
  rw [r1, r2, r3]
  by_cases h1 : self.do_monitor_tx = true <;>
  by_cases h2 : 100 < uint32_sub (to_uint32 ticker) self.turn_on_tx_instant_ms <;>
  simp [h1, h2]

/-- The receive channel after a poll is a function of the receive channel
before it. -/
theorem Runtime_receive_view (ticker : Nat) (self : Signaling) (hw : Board) :
    Channel.receive.view (Signaling.Runtime ticker self hw)
      = if (Channel.receive.view (self, hw)).1 = true ∧
            100 < uint32_sub (to_uint32 ticker) (Channel.receive.view (self, hw)).2.1
        then (false, (Channel.receive.view (self, hw)).2.1, SYSTEM_GPIO_PIN_STATE_LOW)
        else Channel.receive.view (self, hw) := by
  obtain ⟨r1, r2, r3⟩ := Runtime_rx_channel ticker self hw
  simp only [Channel.view]
  rw [r1, r2, r3]
  by_cases h1 : self.do_monitor_rx = true <;>
  by_cases h2 : 100 < uint32_sub (to_uint32 ticker) self.turn_on_rx_instant_ms <;>
  simp [h1, h2]

/-- C9: `Tx()` makes the transmit channel monitored, records the millisecond
clock reading (as a `uint32_t`) as its start time and drives the transmit line
high; it leaves the receive channel (flag, start time, line) and the scan line
as they are.  `Rx()` does the same with the two channels exchanged.  The
result of `Runtime()` on the transmit channel is the same in any two states
that agree on the transmit channel, whatever their receive channels, and
likewise for the receive channel. -/
theorem Tx_Rx_frame_and_independence (ticker : Nat) (self : Signaling) (hw : Board)
    (a : Signaling) (hw_a : Board) (b : Signaling) (hw_b : Board)
    (htx : Channel.transmit.view (a, hw_a) = Channel.transmit.view (self, hw))
    (hrx : Channel.receive.view (b, hw_b) = Channel.receive.view (self, hw)) :
    ((Signaling.Tx ticker self hw).1.do_monitor_tx = true ∧
      (Signaling.Tx ticker self hw).1.turn_on_tx_instant_ms
        = Environment.GetLocalTimeMilliseconds ticker % 4294967296 ∧
      (Signaling.Tx ticker self hw).2.led_tx = SYSTEM_GPIO_PIN_STATE_HIGH ∧
      (Signaling.Tx ticker self hw).1.do_monitor_rx = self.do_monitor_rx ∧
      (Signaling.Tx ticker self hw).1.turn_on_rx_instant_ms = self.turn_on_rx_instant_ms ∧
      (Signaling.Tx ticker self hw).2.led_rx = hw.led_rx ∧
      (Signaling.Tx ticker self hw).2.led_scan = hw.led_scan) ∧
    ((Signaling.Rx ticker self hw).1.do_monitor_rx = true ∧
      (Signaling.Rx ticker self hw).1.turn_on_rx_instant_ms
        = Environment.GetLocalTimeMilliseconds ticker % 4294967296 ∧
      (Signaling.Rx ticker self hw).2.led_rx = SYSTEM_GPIO_PIN_STATE_HIGH ∧
      (Signaling.Rx ticker self hw).1.do_monitor_tx = self.do_monitor_tx ∧
      (Signaling.Rx ticker self hw).1.turn_on_tx_instant_ms = self.turn_on_tx_instant_ms ∧
      (Signaling.Rx ticker self hw).2.led_tx = hw.led_tx ∧
      (Signaling.Rx ticker self hw).2.led_scan = hw.led_scan) ∧
    Channel.transmit.view (Signaling.Runtime ticker a hw_a)
      = Channel.transmit.view (Signaling.Runtime ticker self hw) ∧
    Channel.receive.view (Signaling.Runtime ticker b hw_b)
      = Channel.receive.view (Signaling.Runtime ticker self hw) := by
  refine ⟨?_, ?_, ?_, ?_⟩
  · simp [Signaling.Tx, Board.led_tx, Board.led_rx, Board.led_scan, to_uint32, UINT32_RANGE]
  · simp [Signaling.Rx, Board.led_tx, Board.led_rx, Board.led_scan, to_uint32, UINT32_RANGE]
  · rw [Runtime_transmit_view, Runtime_transmit_view, htx]
  · rw [Runtime_receive_view, Runtime_receive_view, hrx]

/-- C9 at concrete states: at ticker reading 200 the three states have
different channels pending, and agree as required. -/
theorem Tx_Rx_frame_and_independence_witness :
    Channel.transmit.view
        (({ do_monitor_tx := true, turn_on_tx_instant_ms := 150,
            do_monitor_rx := true, turn_on_rx_instant_ms := 20 } : Signaling),
          (Signaling.Tx 150 Signaling.new (Signaling.Rx 20 Signaling.new Board.reset).2).2)
      = Channel.transmit.view (Signaling.Tx 150 Signaling.new Board.reset) ∧
    Channel.receive.view
        (({ do_monitor_tx := true, turn_on_tx_instant_ms := 7,
            do_monitor_rx := false, turn_on_rx_instant_ms := 0 } : Signaling), Board.reset)
      = Channel.receive.view (Signaling.Tx 150 Signaling.new Board.reset) ∧
    Channel.transmit.view
        (Signaling.Runtime 200
          { do_monitor_tx := true, turn_on_tx_instant_ms := 150,
            do_monitor_rx := true, turn_on_rx_instant_ms := 20 }
          (Signaling.Tx 150 Signaling.new (Signaling.Rx 20 Signaling.new Board.reset).2).2)
      = Channel.transmit.view
        (Signaling.Runtime 200 (Signaling.Tx 150 Signaling.new Board.reset).1
          (Signaling.Tx 150 Signaling.new Board.reset).2) :=
  ⟨by decide, by decide,
    (Tx_Rx_frame_and_independence 200 (Signaling.Tx 150 Signaling.new Board.reset).1
      (Signaling.Tx 150 Signaling.new Board.reset).2
      { do_monitor_tx := true, turn_on_tx_instant_ms := 150,
        do_monitor_rx := true, turn_on_rx_instant_ms := 20 }
      (Signaling.Tx 150 Signaling.new (Signaling.Rx 20 Signaling.new Board.reset).2).2
      { do_monitor_tx := true, turn_on_tx_instant_ms := 7,
        do_monitor_rx := false, turn_on_rx_instant_ms := 0 }
      Board.reset (by decide) (by decide)).2.2.1⟩

/-! ## Wraparound of the millisecond counter -/

/-- C10: for a channel that is monitored with start time `t0` (every 32-bit
value, no bound on `t0` is needed), and a true elapsed duration `d < 2^32`
ms, the poll whose ticker reads `(t0 + d) mod 2^32` switches the channel off
(flag false, line low) if `d > 100` and leaves the channel as it is if
`d ≤ 100`, whether or not the counter has wrapped in between. -/
theorem Runtime_wraparound (c : Channel) (t0 d : Nat) (self : Signaling) (hw : Board)
    (level : system_gpio_pin_state_t) (hd : d < 4294967296)
    (hview : c.view (self, hw) = (true, t0, level)) :
    c.view (Signaling.Runtime ((t0 + d) % 4294967296) self hw)
      = if 100 < d then (false, t0, SYSTEM_GPIO_PIN_STATE_LOW) else (true, t0, level) := by
  have he : uint32_sub (to_uint32 ((t0 + d) % 4294967296)) t0 = d := by
    unfold uint32_sub to_uint32 UINT32_RANGE
    omega
  cases c with
  | transmit =>
    rw [Runtime_transmit_view, hview]
    simp only [he, true_and]
  | receive =>
    rw [Runtime_receive_view, hview]
    simp only [he, true_and]

/-- C10 at the example of a wrapped counter: `Tx()` at reading `2^32 - 10`,
poll 101 ms later, at reading 91. -/
theorem Runtime_wraparound_witness :
    101 < 4294967296 ∧
    Channel.transmit.view (Signaling.Tx 4294967286 Signaling.new Board.reset)
      = (true, 4294967286, SYSTEM_GPIO_PIN_STATE_HIGH) ∧
    Channel.transmit.view
        (Signaling.Runtime ((4294967286 + 101) % 4294967296)
          (Signaling.Tx 4294967286 Signaling.new Board.reset).1
          (Signaling.Tx 4294967286 Signaling.new Board.reset).2)
      = if 100 < 101 then (false, 4294967286, SYSTEM_GPIO_PIN_STATE_LOW)
        else (true, 4294967286, SYSTEM_GPIO_PIN_STATE_HIGH) :=
  ⟨by decide, by decide,
    Runtime_wraparound Channel.transmit 4294967286 101
      (Signaling.Tx 4294967286 Signaling.new Board.reset).1
      (Signaling.Tx 4294967286 Signaling.new Board.reset).2
      SYSTEM_GPIO_PIN_STATE_HIGH (by decide) (by decide)⟩

/-- The example of C10, evaluated: after `Tx()` at reading `2^32 - 10`, a poll
at reading 40 (50 ms later) leaves the transmit line high, a poll at reading
90 (100 ms later) still does, and a poll at reading 91 (101 ms later) drives
it low. -/
theorem tx_wrapped_scenario :
    (Signaling.Runtime 40 (Signaling.Tx 4294967286 Signaling.new Board.reset).1
        (Signaling.Tx 4294967286 Signaling.new Board.reset).2).2.led_tx
      = SYSTEM_GPIO_PIN_STATE_HIGH ∧
    (Signaling.Runtime 90 (Signaling.Tx 4294967286 Signaling.new Board.reset).1
        (Signaling.Tx 4294967286 Signaling.new Board.reset).2).2.led_tx
      = SYSTEM_GPIO_PIN_STATE_HIGH ∧
    (Signaling.Runtime 91 (Signaling.Tx 4294967286 Signaling.new Board.reset).1
        (Signaling.Tx 4294967286 Signaling.new Board.reset).2).2.led_tx
      = SYSTEM_GPIO_PIN_STATE_LOW := by
  decide

/-! ## The scan indicator -/

/-- A poll never touches the scan line. -/
theorem Runtime_led_scan (ticker : Nat) (self : Signaling) (hw : Board) :
    (Signaling.Runtime ticker self hw).2.led_scan = hw.led_scan := by
  unfold Signaling.Runtime Board.led_scan Signaling.DURATION_TX_ON_MS
    Signaling.DURATION_RX_ON_MS Environment.GetLocalTimeMilliseconds
  by_cases h1 : self.do_monitor_tx = true <;>
  by_cases h2 : 100 < uint32_sub (to_uint32 ticker) self.turn_on_tx_instant_ms <;>
  by_cases h3 : self.do_monitor_rx = true <;>
  by_cases h4 : 100 < uint32_sub (to_uint32 ticker) self.turn_on_rx_instant_ms <;>
  simp [h1, h2, h3, h4]

/-- C11: from every state `StartCapture()` leaves the scan line high and
`StopCapture()` leaves it low; both leave the fields of the object, hence the
monitoring flags and start times, and the transmit and receive lines as they
are; their result is the same at every ticker reading (they do not read the
clock); and `Runtime()` leaves the scan line as it is. -/
theorem capture_sets_scan_line (self : Signaling) (hw : Board) (ticker other_ticker : Nat) :
    ((Signaling.StartCapture self hw).2.led_scan = SYSTEM_GPIO_PIN_STATE_HIGH ∧
      (Signaling.StartCapture self hw).1 = self ∧
      Channel.transmit.view (Signaling.StartCapture self hw) = Channel.transmit.view (self, hw) ∧
      Channel.receive.view (Signaling.StartCapture self hw) = Channel.receive.view (self, hw) ∧
      Signaling.call SignalingOp.StartCapture ticker (self, hw)
        = Signaling.call SignalingOp.StartCapture other_ticker (self, hw)) ∧
    ((Signaling.StopCapture self hw).2.led_scan = SYSTEM_GPIO_PIN_STATE_LOW ∧
      (Signaling.StopCapture self hw).1 = self ∧
      Channel.transmit.view (Signaling.StopCapture self hw) = Channel.transmit.view (self, hw) ∧
      Channel.receive.view (Signaling.StopCapture self hw) = Channel.receive.view (self, hw) ∧
      Signaling.call SignalingOp.StopCapture ticker (self, hw)
        = Signaling.call SignalingOp.StopCapture other_ticker (self, hw)) ∧
    (Signaling.Runtime ticker self hw).2.led_scan = hw.led_scan := by
  refine ⟨⟨?_, rfl, ?_, ?_, rfl⟩, ⟨?_, rfl, ?_, ?_, rfl⟩, Runtime_led_scan ticker self hw⟩ <;>
  simp [Signaling.StartCapture, Signaling.StopCapture, Channel.view, Board.led_scan,
    Board.led_tx, Board.led_rx]

/-! ## The time source -/

/-- C12: at ticker value `t`, `GetLocalTimeMilliseconds` returns `t` and
`GetLocalTimeSeconds` returns `t / 1000` rounded down; for ticker values
`t1 ≤ t2` both readings are non-decreasing; and
`seconds * 1000 ≤ milliseconds < seconds * 1000 + 1000`. -/
theorem Environment_time_source (t t1 t2 : Nat) (h : t1 ≤ t2) :
    Environment.GetLocalTimeMilliseconds t = t ∧
    Environment.GetLocalTimeSeconds t = t / 1000 ∧
    Environment.GetLocalTimeMilliseconds t1 ≤ Environment.GetLocalTimeMilliseconds t2 ∧
    Environment.GetLocalTimeSeconds t1 ≤ Environment.GetLocalTimeSeconds t2 ∧
    Environment.GetLocalTimeSeconds t * 1000 ≤ Environment.GetLocalTimeMilliseconds t ∧
    Environment.GetLocalTimeMilliseconds t < Environment.GetLocalTimeSeconds t * 1000 + 1000 := by
  unfold Environment.GetLocalTimeMilliseconds Environment.GetLocalTimeSeconds
  refine ⟨rfl, rfl, h, ?_, ?_, ?_⟩ <;> omega

/-- C12 at ticker values 1999 and 2000, around a change of the second. -/
theorem Environment_time_source_witness :
    1999 ≤ 2000 ∧
    Environment.GetLocalTimeMilliseconds 1999 = 1999 ∧
    Environment.GetLocalTimeSeconds 1999 = 1999 / 1000 ∧
    Environment.GetLocalTimeMilliseconds 1999 ≤ Environment.GetLocalTimeMilliseconds 2000 ∧
    Environment.GetLocalTimeSeconds 1999 ≤ Environment.GetLocalTimeSeconds 2000 ∧
    Environment.GetLocalTimeSeconds 1999 * 1000 ≤ Environment.GetLocalTimeMilliseconds 1999 ∧
    Environment.GetLocalTimeMilliseconds 1999
      < Environment.GetLocalTimeSeconds 1999 * 1000 + 1000 :=
  ⟨by decide, Environment_time_source 1999 1999 2000 (by decide)⟩

/-! ## The dispatch loop of `main` -/

theorem main_loop_succ (automatic_mode : Bool) (n : Nat) :
    main_loop automatic_mode (n + 1)
      = main_call.signaling_Runtime ::
          (if automatic_mode = true then main_call.supervisor_RuntimeAuto
            else main_call.supervisor_Runtime) :: main_loop automatic_mode n := by
  cases automatic_mode <;> rfl

theorem main_loop_length (automatic_mode : Bool) (n : Nat) :
    (main_loop automatic_mode n).length = 2 * n := by
  induction n with
  | zero => rfl
  | succ n ih => rw [main_loop_succ, List.length_cons, List.length_cons, ih]; omega

/-- The `i`-th iteration of the loop, cut out of the calls of the first `n`
iterations. -/
theorem main_loop_iteration (automatic_mode : Bool) (n i : Nat) :
    ((main_loop automatic_mode n).drop (2 * i)).take 2
      = if i < n then
          [main_call.signaling_Runtime,
            if automatic_mode = true then main_call.supervisor_RuntimeAuto
            else main_call.supervisor_Runtime]
        else [] := by
  induction n generalizing i with
  | zero => simp [main_loop]
  | succ n ih =>
    rw [main_loop_succ]
    cases i with
    | zero => simp
    | succ i =>
      have h2 : 2 * (i + 1) = 2 * i + 1 + 1 := by omega
      rw [h2, List.drop_succ_cons, List.drop_succ_cons, ih i]
      simp

theorem main_loop_no_read (automatic_mode : Bool) (n : Nat) :
    (main_loop automatic_mode n).count main_call.system_gpio_get_pin_state_BUTTON_BLUE = 0 := by
  induction n with
  | zero => rfl
  | succ n ih =>
    rw [main_loop_succ]
    cases automatic_mode <;> simpa [List.count_cons] using ih

/-- C13: in the calls of `main` up to the end of any number `n` of loop
iterations, the mode-select input is read exactly once, as the call right
after the bring-up calls and before the calls of the loop, none of which is
made during bring-up; `automatic_mode` is true if and only if the reading is
low; and the `i`-th iteration, for every `i < n`, consists of
`signaling.Runtime()` followed by one supervisor call, `RuntimeAuto` if the
reading was low and `Runtime` otherwise, so the loop makes `2 * n` calls. -/
theorem main_dispatch (button : system_gpio_pin_state_t) (n i : Nat) :
    (main button n).count main_call.system_gpio_get_pin_state_BUTTON_BLUE = 1 ∧
    (main button n).take (main_bring_up.length + 1)
      = main_bring_up ++ [main_call.system_gpio_get_pin_state_BUTTON_BLUE] ∧
    (main button n).drop (main_bring_up.length + 1)
      = main_loop (main_automatic_mode button) n ∧
    (main_call.signaling_Runtime ∉ main_bring_up ∧
      main_call.supervisor_RuntimeAuto ∉ main_bring_up ∧
      main_call.supervisor_Runtime ∉ main_bring_up) ∧
    (main_automatic_mode button = true ↔ button = SYSTEM_GPIO_PIN_STATE_LOW) ∧
    ((main_loop (main_automatic_mode button) n).drop (2 * i)).take 2
      = (if i < n then
          [main_call.signaling_Runtime,
            if button = SYSTEM_GPIO_PIN_STATE_LOW then main_call.supervisor_RuntimeAuto
            else main_call.supervisor_Runtime]
        else []) ∧
    (main_loop (main_automatic_mode button) n).length = 2 * n := by
  have hmode : main_automatic_mode button = true ↔ button = SYSTEM_GPIO_PIN_STATE_LOW := by
    cases button <;> simp [main_automatic_mode]
  refine ⟨?_, ?_, ?_, by decide, hmode, ?_, main_loop_length _ n⟩
  · unfold main
    rw [List.count_append, List.count_append, main_loop_no_read]
    rfl
  · unfold main
    rw [List.take_append_of_le_length (by simp)]
    simp
  · unfold main
    rw [List.drop_append_of_le_length (by simp)]
    simp
  · rw [main_loop_iteration]
    simp only [hmode]

/-! ## The state invariant of `Signaling` -/

/-- One call keeps, for each channel: if the channel is monitored, its line is
high and its start time is the ticker reading at the most recent activation. -/
theorem call_keeps_monitored_invariant (c : Channel) (op : SignalingOp) (t : Nat)
    (st : Signaling × Board) (acc : Option Nat)
    (hinv : (c.view st).1 = true →
      (c.view st).2.2 = SYSTEM_GPIO_PIN_STATE_HIGH ∧
        acc.map system_time_GetTicker = some (c.view st).2.1) :
    (c.view (Signaling.call op (system_time_GetTicker t) st)).1 = true →
      (c.view (Signaling.call op (system_time_GetTicker t) st)).2.2
          = SYSTEM_GPIO_PIN_STATE_HIGH ∧
        (if op = c.activation then some t else acc).map system_time_GetTicker
          = some (c.view (Signaling.call op (system_time_GetTicker t) st)).2.1 := by
  cases c with
  | transmit =>
    cases op with
    | Runtime =>
      obtain ⟨r1, r2, r3⟩ := Runtime_tx_channel (system_time_GetTicker t) st.1 st.2
      simp only [Channel.view, Signaling.call, Channel.activation] at hinv ⊢
      rw [r1, r2, r3]
      intro h
      simp only [Bool.and_eq_true, Bool.not_eq_true', decide_eq_false_iff_not] at h
      obtain ⟨i1, i2⟩ := hinv h.1
      simp [h.2, i1, i2]
    | Tx =>
      intro _
      simp [Channel.view, Signaling.call, Signaling.Tx, Board.led_tx, Channel.activation,
        Environment.GetLocalTimeMilliseconds, to_uint32, system_time_GetTicker]
    | Rx =>
      simpa [Channel.view, Signaling.call, Signaling.Rx, Board.led_tx, Channel.activation]
        using hinv
    | StartCapture =>
      simpa [Channel.view, Signaling.call, Signaling.StartCapture, Board.led_tx,
        Channel.activation] using hinv
    | StopCapture =>
      simpa [Channel.view, Signaling.call, Signaling.StopCapture, Board.led_tx,
        Channel.activation] using hinv
    | StartContinuousTx =>
      intro h
      simp [Channel.view, Signaling.call, Signaling.StartContinuousTx] at h
    | StopContinuousTx =>
      intro h
      simp [Channel.view, Signaling.call, Signaling.StopContinuousTx] at h
  | receive =>
    cases op with
    | Runtime =>
      obtain ⟨r1, r2, r3⟩ := Runtime_rx_channel (system_time_GetTicker t) st.1 st.2
      simp only [Channel.view, Signaling.call, Channel.activation] at hinv ⊢
      rw [r1, r2, r3]
      intro h
      simp only [Bool.and_eq_true, Bool.not_eq_true', decide_eq_false_iff_not] at h
      obtain ⟨i1, i2⟩ := hinv h.1
      simp [h.2, i1, i2]
    | Rx =>
      intro _
      simp [Channel.view, Signaling.call, Signaling.Rx, Board.led_rx, Channel.activation,
        Environment.GetLocalTimeMilliseconds, to_uint32, system_time_GetTicker]
    | Tx =>
      simpa [Channel.view, Signaling.call, Signaling.Tx, Board.led_rx, Channel.activation]
        using hinv
    | StartCapture =>
      simpa [Channel.view, Signaling.call, Signaling.StartCapture, Board.led_rx,
        Channel.activation] using hinv
    | StopCapture =>
      simpa [Channel.view, Signaling.call, Signaling.StopCapture, Board.led_rx,
        Channel.activation] using hinv
    | StartContinuousTx =>
      intro h
      simp [Channel.view, Signaling.call, Signaling.StartContinuousTx] at h
    | StopContinuousTx =>
      intro h
      simp [Channel.view, Signaling.call, Signaling.StopContinuousTx] at h

/-- A sequence of calls keeps the same. -/
theorem run_keeps_monitored_invariant (c : Channel) (events : List (SignalingOp × Nat))
    (st : Signaling × Board) (acc : Option Nat)
    (hinv : (c.view st).1 = true →
      (c.view st).2.2 = SYSTEM_GPIO_PIN_STATE_HIGH ∧
        acc.map system_time_GetTicker = some (c.view st).2.1) :
    (c.view (Signaling.run st events)).1 = true →
      (c.view (Signaling.run st events)).2.2 = SYSTEM_GPIO_PIN_STATE_HIGH ∧
        (last_call_time c.activation acc events).map system_time_GetTicker
          = some (c.view (Signaling.run st events)).2.1 := by
  induction events generalizing st acc with
  | nil => exact hinv
  | cons e events ih =>
    rw [run_cons]
    exact ih _ _ (call_keeps_monitored_invariant c e.1 e.2 st acc hinv)

/-- C14: after every sequence of the seven operations, made at arbitrary
times, on a constructed `Signaling` object: if a channel is monitored, then
its line is high and its recorded start time is the ticker reading at the
most recent `Tx()` (for the transmit channel) or `Rx()` (for the receive
channel) of the sequence. -/
theorem monitored_channel_invariant (c : Channel) (hw : Board)
    (events : List (SignalingOp × Nat))
    (hmon : (c.view (Signaling.run (Signaling.new, hw) events)).1 = true) :
    (c.view (Signaling.run (Signaling.new, hw) events)).2.2 = SYSTEM_GPIO_PIN_STATE_HIGH ∧
      (last_call_time c.activation none events).map system_time_GetTicker
        = some (c.view (Signaling.run (Signaling.new, hw) events)).2.1 := by
  refine run_keeps_monitored_invariant c events (Signaling.new, hw) none ?_ hmon
  intro h
  cases c <;> simp [Channel.view, Signaling.new] at h

/-- C14 at a concrete sequence in which the receive channel is activated
twice, polled in between and left monitored at the end. -/
theorem monitored_channel_invariant_witness :
    (Channel.receive.view (Signaling.run (Signaling.new, Board.reset)
      [(SignalingOp.Rx, 10), (SignalingOp.Tx, 20), (SignalingOp.Runtime, 500),
        (SignalingOp.Rx, 4294967300), (SignalingOp.StartCapture, 4294967301),
        (SignalingOp.Runtime, 4294967350)])).1 = true ∧
    (Channel.receive.view (Signaling.run (Signaling.new, Board.reset)
      [(SignalingOp.Rx, 10), (SignalingOp.Tx, 20), (SignalingOp.Runtime, 500),
        (SignalingOp.Rx, 4294967300), (SignalingOp.StartCapture, 4294967301),
        (SignalingOp.Runtime, 4294967350)])).2.2 = SYSTEM_GPIO_PIN_STATE_HIGH ∧
    (last_call_time Channel.receive.activation none
      [(SignalingOp.Rx, 10), (SignalingOp.Tx, 20), (SignalingOp.Runtime, 500),
        (SignalingOp.Rx, 4294967300), (SignalingOp.StartCapture, 4294967301),
        (SignalingOp.Runtime, 4294967350)]).map system_time_GetTicker
      = some (Channel.receive.view (Signaling.run (Signaling.new, Board.reset)
          [(SignalingOp.Rx, 10), (SignalingOp.Tx, 20), (SignalingOp.Runtime, 500),
            (SignalingOp.Rx, 4294967300), (SignalingOp.StartCapture, 4294967301),
            (SignalingOp.Runtime, 4294967350)])).2.1 :=
  ⟨by decide, monitored_channel_invariant Channel.receive Board.reset _ (by decide)⟩

/-! ## The last selection wins -/

theorem antenna_run_append (st : AntennaSelector × Board) (ops ops' : List AntennaOp) :
    AntennaSelector.run st (ops ++ ops')
      = AntennaSelector.run (AntennaSelector.run st ops) ops' := by
  unfold AntennaSelector.run
  rw [List.foldl_append]

/-- The levels that a selection leaves on the two control lines, and the flag,
from every state. -/
theorem call_antenna_levels (op : AntennaOp) (st : AntennaSelector × Board) :
    (AntennaSelector.call op st).2.antenna_levels
        = (match op with
          | AntennaOp.SelectAntenna1 => (SYSTEM_GPIO_PIN_STATE_LOW, SYSTEM_GPIO_PIN_STATE_HIGH)
          | AntennaOp.SelectAntenna2 => (SYSTEM_GPIO_PIN_STATE_HIGH, SYSTEM_GPIO_PIN_STATE_LOW)) ∧
      (AntennaSelector.call op st).1.has_been_init = true := by
  cases op <;> cases h : st.1.has_been_init <;>
  simp [AntennaSelector.call, AntennaSelector.SelectAntenna1, AntennaSelector.SelectAntenna2,
    AntennaSelector.init_if_not, Board.antenna_levels, h]

/-- C15: the levels of the two control lines after a non-empty sequence of
selections depend only on its last call: two sequences that end with the same
call, run from any two states, leave the same levels, namely low/high after
`SelectAntenna1` and high/low after `SelectAntenna2`.  A call made twice in a
row leaves the same levels and the same flag as the call made once.  After
any selection, later selections make no configuration call, only level
settings, so the configuration to low/low never replaces levels set by an
earlier selection. -/
theorem antenna_last_call_wins (st st' : AntennaSelector × Board) (ops ops' : List AntennaOp)
    (op : AntennaOp) :
    (AntennaSelector.run st (ops ++ [op])).2.antenna_levels
        = (AntennaSelector.run st' (ops' ++ [op])).2.antenna_levels ∧
    (AntennaSelector.run st (ops ++ [op])).2.antenna_levels
        = (match op with
          | AntennaOp.SelectAntenna1 => (SYSTEM_GPIO_PIN_STATE_LOW, SYSTEM_GPIO_PIN_STATE_HIGH)
          | AntennaOp.SelectAntenna2 => (SYSTEM_GPIO_PIN_STATE_HIGH, SYSTEM_GPIO_PIN_STATE_LOW)) ∧
    ((AntennaSelector.call op (AntennaSelector.call op st)).2.antenna_levels
        = (AntennaSelector.call op st).2.antenna_levels ∧
      (AntennaSelector.call op (AntennaSelector.call op st)).1.has_been_init
        = (AntennaSelector.call op st).1.has_been_init ∧
      (AntennaSelector.call op (AntennaSelector.call op st)).2.pins
        = (AntennaSelector.call op st).2.pins) ∧
    ((AntennaSelector.run (AntennaSelector.call op st) ops).2.calls
        = (AntennaSelector.call op st).2.calls ++ ops.flatMap AntennaOp.level_calls ∧
      ((AntennaSelector.run (AntennaSelector.call op st) ops).2.calls.drop
          (AntennaSelector.call op st).2.calls.length).countP gpio_call.is_configuration = 0) := by
  have hlast : ∀ (s : AntennaSelector × Board) (l : List AntennaOp),
      (AntennaSelector.run s (l ++ [op])).2.antenna_levels
        = (match op with
          | AntennaOp.SelectAntenna1 => (SYSTEM_GPIO_PIN_STATE_LOW, SYSTEM_GPIO_PIN_STATE_HIGH)
          | AntennaOp.SelectAntenna2 =>
              (SYSTEM_GPIO_PIN_STATE_HIGH, SYSTEM_GPIO_PIN_STATE_LOW)) := by
    intro s l
    rw [antenna_run_append, antenna_run_cons, antenna_run_nil]
    exact (call_antenna_levels op _).1
  have hflag := (call_antenna_levels op st).2
  have hcalls := (run_later ops (AntennaSelector.call op st) hflag).2
  refine ⟨(hlast st ops).trans (hlast st' ops').symm, hlast st ops, ⟨?_, ?_, ?_⟩, hcalls, ?_⟩
  · rw [(call_antenna_levels op _).1, (call_antenna_levels op st).1]
  · rw [(call_antenna_levels op _).2, hflag]
  · funext g
    cases op <;> cases h : st.1.has_been_init <;> cases g <;>
    simp [AntennaSelector.call, AntennaSelector.SelectAntenna1, AntennaSelector.SelectAntenna2,
      AntennaSelector.init_if_not, system_gpio_set_pin_state, system_gpio_init_direction_state,
      Function.update, h]
  · rw [hcalls, List.drop_left, level_calls_no_configuration]

end Lr1110Evk
